import Mathlib

/-!
Verification of the OpenRGB-cppSDK protocol layer (src/include/OpenRGB/private/Protocol.hpp).

The repository ships the protocol header (struct layouts, inline constructors,
the constexpr size functions, and the enum codes); the .cpp bodies of the byte
codec and of the non-inline serialize / deserialize functions are not part of
the sources, so those operations are modelled from the specification (marked
"Modelled from the spec:" below).  Machine integers are Nat with explicit
reduction mod 2^w where the code truncates; byte buffers are List Nat.
-/

namespace Orgb

/-- Error kinds of the deserialisation path, from the spec's error taxonomy
(Truncated, Malformed, BadMagic, UnknownType). -/
inductive DeserialError where
  | Truncated
  | Malformed
  | BadMagic
  | UnknownType
deriving DecidableEq

/-- Result of a bounded input-cursor read: the parsed value and the rest of the
buffer, or an error. -/
abbrev ParseResult : Type → Type := fun α => Except DeserialError (α × List Nat)

/-- Sequencing of fallible reads: stop at the first error, otherwise feed the
parsed value and the remaining buffer to the continuation. -/
def pbind {α β : Type} (x : ParseResult α) (f : α × List Nat → ParseResult β) :
    ParseResult β :=
  match x with
  | Except.ok a => f a
  | Except.error e => Except.error e

/-- Modelled from the spec: the output cursor's little-endian u8 write
(missing BufferOutputStream implementation). -/
def u8Bytes (v : Nat) : List Nat := [v % 256]

/-- Modelled from the spec: the output cursor's little-endian u16 write. -/
def u16Bytes (v : Nat) : List Nat := [v % 256, v / 256 % 256]

/-- Modelled from the spec: the output cursor's little-endian u32 write. -/
def u32Bytes (v : Nat) : List Nat :=
  [v % 256, v / 256 % 256, v / 65536 % 256, v / 16777216 % 256]

/-- Modelled from the spec: length-prefixed string write — a 16-bit length `L`
counting the characters plus one zero terminator, then the characters, then
the terminator. -/
def strBytes (s : List Nat) : List Nat := u16Bytes (s.length + 1) ++ s ++ [0]

/-- Number of bytes a serialised string occupies (length word + chars + terminator). -/
def strSize (s : List Nat) : Nat := 2 + s.length + 1

/-- Modelled from the spec: bounded input-cursor u8 read; `Truncated` if the
buffer is exhausted. -/
def readU8 : List Nat → ParseResult Nat
  | [] => Except.error DeserialError.Truncated
  | b :: rest => Except.ok (b, rest)

/-- Modelled from the spec: bounded input-cursor little-endian u16 read. -/
def readU16 : List Nat → ParseResult Nat
  | b0 :: b1 :: rest => Except.ok (b0 + 256 * b1, rest)
  | _ => Except.error DeserialError.Truncated

/-- Modelled from the spec: bounded input-cursor little-endian u32 read. -/
def readU32 : List Nat → ParseResult Nat
  | b0 :: b1 :: b2 :: b3 :: rest =>
      Except.ok (b0 + 256 * b1 + 65536 * b2 + 16777216 * b3, rest)
  | _ => Except.error DeserialError.Truncated

/-- Modelled from the spec: fixed-length byte-array read with bounds check. -/
def readBytesN (n : Nat) (s : List Nat) : ParseResult (List Nat) :=
  if n ≤ s.length then Except.ok (s.take n, s.drop n)
  else Except.error DeserialError.Truncated

/-- Modelled from the spec: length-prefixed string read — a 16-bit length `L`,
then exactly `L` bytes of which the final one is the zero terminator; the
string value is the first `L - 1` bytes. -/
def readStr (s : List Nat) : ParseResult (List Nat) :=
  pbind (readU16 s) fun (len, s) =>
    if len = 0 then Except.error DeserialError.Malformed else
    pbind (readBytesN len s) fun (chars, s) =>
      Except.ok (chars.take (len - 1), s)

/-- Write each list element in order (no count word). -/
def listBytes {α : Type} (writeOne : α → List Nat) : List α → List Nat
  | [] => []
  | a :: as => writeOne a ++ listBytes writeOne as

/-- Sum of a size function over a list. -/
def sizeSum {α : Type} (f : α → Nat) : List α → Nat
  | [] => 0
  | a :: as => f a + sizeSum f as

/-- Modelled from the spec: read exactly `n` consecutive elements. -/
def readListN {α : Type} (readOne : List Nat → ParseResult α) :
    Nat → List Nat → ParseResult (List α)
  | 0, s => Except.ok ([], s)
  | n + 1, s =>
      pbind (readOne s) fun (a, s) =>
        pbind (readListN readOne n s) fun (as, s) =>
          Except.ok (a :: as, s)

/-- Modelled from the spec: a dynamic list is a 16-bit element count followed
by the elements. -/
def readList16 {α : Type} (readOne : List Nat → ParseResult α) (s : List Nat) :
    ParseResult (List α) :=
  pbind (readU16 s) fun (n, s) => readListN readOne n s

/-- Modelled from the spec: write a dynamic list as its 16-bit count then the
elements. -/
def writeList16 {α : Type} (writeOne : α → List Nat) (xs : List α) : List Nat :=
  u16Bytes xs.length ++ listBytes writeOne xs

/-! ### Enums (codes from the source header) -/

/-- Direction of the color effect (source enum `Direction`). -/
inductive Direction where
  | Left
  | Right
  | Up
  | Down
  | Horizontal
  | Vertical
deriving DecidableEq

/-- Wire code of a `Direction`, from the source enum values. -/
def Direction.code : Direction → Nat
  | Direction.Left => 0
  | Direction.Right => 1
  | Direction.Up => 2
  | Direction.Down => 3
  | Direction.Horizontal => 4
  | Direction.Vertical => 5

/-- Modelled from the spec: decoding a 32-bit `Direction` code; an out-of-range
code is an enum-range violation (`Malformed`). -/
def Direction.ofCode : Nat → Option Direction
  | 0 => some Direction.Left
  | 1 => some Direction.Right
  | 2 => some Direction.Up
  | 3 => some Direction.Down
  | 4 => some Direction.Horizontal
  | 5 => some Direction.Vertical
  | _ => none

/-- How the colors of a mode are set (source enum `ColorMode`). -/
inductive ColorMode where
  | None
  | PerLed
  | ModeSpecific
  | Random
deriving DecidableEq

/-- Wire code of a `ColorMode`, from the source enum values. -/
def ColorMode.code : ColorMode → Nat
  | ColorMode.None => 0
  | ColorMode.PerLed => 1
  | ColorMode.ModeSpecific => 2
  | ColorMode.Random => 3

/-- Modelled from the spec: decoding a 32-bit `ColorMode` code. -/
def ColorMode.ofCode : Nat → Option ColorMode
  | 0 => some ColorMode.None
  | 1 => some ColorMode.PerLed
  | 2 => some ColorMode.ModeSpecific
  | 3 => some ColorMode.Random
  | _ => none

/-- Type of RGB zone (source enum `ZoneType`). -/
inductive ZoneType where
  | Single
  | Linear
  | Matrix
deriving DecidableEq

/-- Wire code of a `ZoneType`, from the source enum values. -/
def ZoneType.code : ZoneType → Nat
  | ZoneType.Single => 0
  | ZoneType.Linear => 1
  | ZoneType.Matrix => 2

/-- Modelled from the spec: decoding a 32-bit `ZoneType` code. -/
def ZoneType.ofCode : Nat → Option ZoneType
  | 0 => some ZoneType.Single
  | 1 => some ZoneType.Linear
  | 2 => some ZoneType.Matrix
  | _ => none

/-- Type of device with RGB LEDs (source enum `DeviceType`). -/
inductive DeviceType where
  | Motherboard
  | DRAM
  | GPU
  | Cooler
  | LedStrip
  | Keyboard
  | Mouse
  | MouseMat
  | Headset
  | HeadsetStand
  | Gamepad
  | Unknown
deriving DecidableEq

/-- Wire code of a `DeviceType`, from the source enum values. -/
def DeviceType.code : DeviceType → Nat
  | DeviceType.Motherboard => 0
  | DeviceType.DRAM => 1
  | DeviceType.GPU => 2
  | DeviceType.Cooler => 3
  | DeviceType.LedStrip => 4
  | DeviceType.Keyboard => 5
  | DeviceType.Mouse => 6
  | DeviceType.MouseMat => 7
  | DeviceType.Headset => 8
  | DeviceType.HeadsetStand => 9
  | DeviceType.Gamepad => 10
  | DeviceType.Unknown => 11

/-- Modelled from the spec: decoding a 32-bit `DeviceType` code. -/
def DeviceType.ofCode : Nat → Option DeviceType
  | 0 => some DeviceType.Motherboard
  | 1 => some DeviceType.DRAM
  | 2 => some DeviceType.GPU
  | 3 => some DeviceType.Cooler
  | 4 => some DeviceType.LedStrip
  | 5 => some DeviceType.Keyboard
  | 6 => some DeviceType.Mouse
  | 7 => some DeviceType.MouseMat
  | 8 => some DeviceType.Headset
  | 9 => some DeviceType.HeadsetStand
  | 10 => some DeviceType.Gamepad
  | 11 => some DeviceType.Unknown
  | _ => none

/-- Message type codes (source enum `MessageType`). -/
inductive MessageType where
  | REQUEST_CONTROLLER_COUNT
  | REQUEST_CONTROLLER_DATA
  | REQUEST_PROTOCOL_VERSION
  | SET_CLIENT_NAME
  | DEVICE_LIST_UPDATED
  | RGBCONTROLLER_RESIZEZONE
  | RGBCONTROLLER_UPDATELEDS
  | RGBCONTROLLER_UPDATEZONELEDS
  | RGBCONTROLLER_UPDATESINGLELED
  | RGBCONTROLLER_SETCUSTOMMODE
  | RGBCONTROLLER_UPDATEMODE
deriving DecidableEq

/-- Wire code of a `MessageType`, from the source enum values. -/
def MessageType.code : MessageType → Nat
  | MessageType.REQUEST_CONTROLLER_COUNT => 0
  | MessageType.REQUEST_CONTROLLER_DATA => 1
  | MessageType.REQUEST_PROTOCOL_VERSION => 40
  | MessageType.SET_CLIENT_NAME => 50
  | MessageType.DEVICE_LIST_UPDATED => 100
  | MessageType.RGBCONTROLLER_RESIZEZONE => 1000
  | MessageType.RGBCONTROLLER_UPDATELEDS => 1050
  | MessageType.RGBCONTROLLER_UPDATEZONELEDS => 1051
  | MessageType.RGBCONTROLLER_UPDATESINGLELED => 1052
  | MessageType.RGBCONTROLLER_SETCUSTOMMODE => 1100
  | MessageType.RGBCONTROLLER_UPDATEMODE => 1101

/-- Modelled from the spec: the set of recognised header codes; anything else
is `UnknownType`. -/
def MessageType.ofCode : Nat → Option MessageType
  | 0 => some MessageType.REQUEST_CONTROLLER_COUNT
  | 1 => some MessageType.REQUEST_CONTROLLER_DATA
  | 40 => some MessageType.REQUEST_PROTOCOL_VERSION
  | 50 => some MessageType.SET_CLIENT_NAME
  | 100 => some MessageType.DEVICE_LIST_UPDATED
  | 1000 => some MessageType.RGBCONTROLLER_RESIZEZONE
  | 1050 => some MessageType.RGBCONTROLLER_UPDATELEDS
  | 1051 => some MessageType.RGBCONTROLLER_UPDATEZONELEDS
  | 1052 => some MessageType.RGBCONTROLLER_UPDATESINGLELED
  | 1100 => some MessageType.RGBCONTROLLER_SETCUSTOMMODE
  | 1101 => some MessageType.RGBCONTROLLER_UPDATEMODE
  | _ => none

/-- Enum-valued u32 field read (`Direction`): read a u32 and decode it,
`Malformed` on an out-of-range code. -/
def readDirection (s : List Nat) : ParseResult Direction :=
  pbind (readU32 s) fun (code, s) =>
    match Direction.ofCode code with
    | some d => Except.ok (d, s)
    | none => Except.error DeserialError.Malformed

/-- Enum-valued u32 field read (`ColorMode`). -/
def readColorMode (s : List Nat) : ParseResult ColorMode :=
  pbind (readU32 s) fun (code, s) =>
    match ColorMode.ofCode code with
    | some c => Except.ok (c, s)
    | none => Except.error DeserialError.Malformed

/-- Enum-valued u32 field read (`ZoneType`). -/
def readZoneType (s : List Nat) : ParseResult ZoneType :=
  pbind (readU32 s) fun (code, s) =>
    match ZoneType.ofCode code with
    | some z => Except.ok (z, s)
    | none => Except.error DeserialError.Malformed

/-- Enum-valued u32 field read (`DeviceType`). -/
def readDeviceType (s : List Nat) : ParseResult DeviceType :=
  pbind (readU32 s) fun (code, s) =>
    match DeviceType.ofCode code with
    | some d => Except.ok (d, s)
    | none => Except.error DeserialError.Malformed

/-! ### Color -/

/-- A 4-byte color triple; serialised as `{R, G, B, pad = 0}` (Color.hpp). -/
structure Color where
  r : Nat
  g : Nat
  b : Nat
deriving DecidableEq

/-- The color components are bytes (uint8_t in the source). -/
def Color.Wf (c : Color) : Prop := c.r < 256 ∧ c.g < 256 ∧ c.b < 256

instance (c : Color) : Decidable c.Wf := by
  unfold Color.Wf; infer_instance

/-- Modelled from the spec: a color is emitted as the bytes R, G, B, 0. -/
def Color.bytes (c : Color) : List Nat := [c.r % 256, c.g % 256, c.b % 256, 0]

/-- Modelled from the spec: a color is read as R, G, B and a padding byte. -/
def readColor : List Nat → ParseResult Color
  | r :: g :: b :: _pad :: rest => Except.ok (Color.mk r g b, rest)
  | _ => Except.error DeserialError.Truncated

/-! ### Description records -/

/-- A serialisable string: its 16-bit length word (chars + terminator) must fit,
and its characters are bytes. -/
def StrWf (s : List Nat) : Prop := s.length + 1 < 65536 ∧ ∀ c ∈ s, c < 256

instance (s : List Nat) : Decidable (StrWf s) := by
  unfold StrWf; infer_instance

/-- Source struct `ModeDescription` (Protocol.hpp): a mode of a controller. -/
structure ModeDescription where
  name : List Nat
  value : Nat
  flags : Nat
  speed_min : Nat
  speed_max : Nat
  colors_min : Nat
  colors_max : Nat
  speed : Nat
  direction : Direction
  color_mode : ColorMode
  colors : List Color
deriving DecidableEq

/-- All u32 fields in range, string and color list serialisable. -/
def ModeDescription.Wf (m : ModeDescription) : Prop :=
  StrWf m.name ∧ m.value < 4294967296 ∧ m.flags < 4294967296 ∧
  m.speed_min < 4294967296 ∧ m.speed_max < 4294967296 ∧
  m.colors_min < 4294967296 ∧ m.colors_max < 4294967296 ∧ m.speed < 4294967296 ∧
  m.colors.length < 65536 ∧ ∀ c ∈ m.colors, c.Wf

instance (m : ModeDescription) : Decidable m.Wf := by
  unfold ModeDescription.Wf; infer_instance

/-- Modelled from the spec: `ModeDescription::serialize` (missing .cpp body) —
the fixed fields in struct order, then the 16-bit-counted color list. -/
def ModeDescription.serialize (m : ModeDescription) : List Nat :=
  strBytes m.name ++ u32Bytes m.value ++ u32Bytes m.flags ++ u32Bytes m.speed_min ++
  u32Bytes m.speed_max ++ u32Bytes m.colors_min ++ u32Bytes m.colors_max ++
  u32Bytes m.speed ++ u32Bytes m.direction.code ++ u32Bytes m.color_mode.code ++
  writeList16 Color.bytes m.colors

/-- Modelled from the spec: `ModeDescription::calcSize` (missing .cpp body) —
the exact byte count of the serialisation. -/
def ModeDescription.calcSize (m : ModeDescription) : Nat :=
  strSize m.name + 4 + 4 + 4 + 4 + 4 + 4 + 4 + 4 + 4 + 2 + 4 * m.colors.length

/-- Modelled from the spec: `ModeDescription::deserialize` (missing .cpp body) —
reads all fixed fields unconditionally, then the color list. -/
def ModeDescription.deserialize (s : List Nat) : ParseResult ModeDescription :=
  pbind (readStr s) fun (name, s) =>
  pbind (readU32 s) fun (value, s) =>
  pbind (readU32 s) fun (flags, s) =>
  pbind (readU32 s) fun (speed_min, s) =>
  pbind (readU32 s) fun (speed_max, s) =>
  pbind (readU32 s) fun (colors_min, s) =>
  pbind (readU32 s) fun (colors_max, s) =>
  pbind (readU32 s) fun (speed, s) =>
  pbind (readDirection s) fun (direction, s) =>
  pbind (readColorMode s) fun (color_mode, s) =>
  pbind (readList16 readColor s) fun (colors, s) =>
  Except.ok (ModeDescription.mk name value flags speed_min speed_max colors_min
    colors_max speed direction color_mode colors, s)

/-- Source struct `LEDDescription` (Protocol.hpp): a single LED. -/
structure LEDDescription where
  name : List Nat
  value : Nat
deriving DecidableEq

/-- Serialisable string and u32 value in range. -/
def LEDDescription.Wf (l : LEDDescription) : Prop :=
  StrWf l.name ∧ l.value < 4294967296

instance (l : LEDDescription) : Decidable l.Wf := by
  unfold LEDDescription.Wf; infer_instance

/-- Modelled from the spec: `LEDDescription::serialize` (missing .cpp body). -/
def LEDDescription.serialize (l : LEDDescription) : List Nat :=
  strBytes l.name ++ u32Bytes l.value

/-- Modelled from the spec: `LEDDescription::calcSize` (missing .cpp body). -/
def LEDDescription.calcSize (l : LEDDescription) : Nat :=
  strSize l.name + 4

/-- Modelled from the spec: `LEDDescription::deserialize` (missing .cpp body). -/
def LEDDescription.deserialize (s : List Nat) : ParseResult LEDDescription :=
  pbind (readStr s) fun (name, s) =>
  pbind (readU32 s) fun (value, s) =>
  Except.ok (LEDDescription.mk name value, s)

/-- Source struct `ZoneDescription` (Protocol.hpp): a zone of a controller; the
matrix fields are optional, present iff `matrix_length > 0`. -/
structure ZoneDescription where
  name : List Nat
  type : ZoneType
  leds_min : Nat
  leds_max : Nat
  leds_count : Nat
  matrix_length : Nat
  matrix_height : Nat
  matrix_width : Nat
  matrix_values : List Nat
deriving DecidableEq

/-- Field ranges, plus the spec invariant: `matrix_length == 0` iff the matrix
block is absent (absent fields zero/empty), and when present
`matrix_length == 8 + 4 * height * width` with exactly that many cells. -/
def ZoneDescription.Wf (z : ZoneDescription) : Prop :=
  StrWf z.name ∧ z.leds_min < 4294967296 ∧ z.leds_max < 4294967296 ∧
  z.leds_count < 4294967296 ∧ z.matrix_length < 65536 ∧
  (z.matrix_length = 0 →
    z.matrix_height = 0 ∧ z.matrix_width = 0 ∧ z.matrix_values = []) ∧
  (z.matrix_length ≠ 0 →
    z.matrix_length = 8 + 4 * (z.matrix_height * z.matrix_width) ∧
    z.matrix_height < 4294967296 ∧ z.matrix_width < 4294967296 ∧
    z.matrix_values.length = z.matrix_height * z.matrix_width ∧
    ∀ v ∈ z.matrix_values, v < 4294967296)

instance (z : ZoneDescription) : Decidable z.Wf := by
  unfold ZoneDescription.Wf; infer_instance

/-- Modelled from the spec: `ZoneDescription::serialize` (missing .cpp body) —
fixed fields, 16-bit `matrix_length`, then the matrix block iff
`matrix_length > 0`. -/
def ZoneDescription.serialize (z : ZoneDescription) : List Nat :=
  strBytes z.name ++ u32Bytes z.type.code ++ u32Bytes z.leds_min ++
  u32Bytes z.leds_max ++ u32Bytes z.leds_count ++ u16Bytes z.matrix_length ++
  (if z.matrix_length = 0 then []
   else u32Bytes z.matrix_height ++ u32Bytes z.matrix_width ++
     listBytes u32Bytes z.matrix_values)

/-- Modelled from the spec: `ZoneDescription::calcSize` (missing .cpp body). -/
def ZoneDescription.calcSize (z : ZoneDescription) : Nat :=
  strSize z.name + 4 + 4 + 4 + 4 + 2 +
  (if z.matrix_length = 0 then 0 else 4 + 4 + 4 * z.matrix_values.length)

/-- Modelled from the spec: `ZoneDescription::deserialize` (missing .cpp body) —
reads the matrix block iff `matrix_length > 0` and fails `Malformed` when the
declared `matrix_length` is inconsistent with `8 + 4 * height * width`. -/
def ZoneDescription.deserialize (s : List Nat) : ParseResult ZoneDescription :=
  pbind (readStr s) fun (name, s) =>
  pbind (readZoneType s) fun (ztype, s) =>
  pbind (readU32 s) fun (leds_min, s) =>
  pbind (readU32 s) fun (leds_max, s) =>
  pbind (readU32 s) fun (leds_count, s) =>
  pbind (readU16 s) fun (matrix_length, s) =>
  if matrix_length = 0 then
    Except.ok (ZoneDescription.mk name ztype leds_min leds_max leds_count
      matrix_length 0 0 [], s)
  else
    pbind (readU32 s) fun (matrix_height, s) =>
    pbind (readU32 s) fun (matrix_width, s) =>
    if matrix_length = 8 + 4 * (matrix_height * matrix_width) then
      pbind (readListN readU32 (matrix_height * matrix_width) s) fun (vals, s) =>
      Except.ok (ZoneDescription.mk name ztype leds_min leds_max leds_count
        matrix_length matrix_height matrix_width vals, s)
    else Except.error DeserialError.Malformed

/-- Source struct `DeviceDescription` (Protocol.hpp): everything about one
controller. -/
structure DeviceDescription where
  device_type : DeviceType
  name : List Nat
  vendor : List Nat
  description : List Nat
  version : List Nat
  serial : List Nat
  location : List Nat
  active_mode : Nat
  modes : List ModeDescription
  zones : List ZoneDescription
  leds : List LEDDescription
  colors : List Color
deriving DecidableEq

/-- Field ranges plus the spec's deserialisation invariants:
`active_mode < modes.len()` and `colors.len() == leds.len()`. -/
def DeviceDescription.Wf (d : DeviceDescription) : Prop :=
  StrWf d.name ∧ StrWf d.vendor ∧ StrWf d.description ∧ StrWf d.version ∧
  StrWf d.serial ∧ StrWf d.location ∧ d.active_mode < 4294967296 ∧
  d.modes.length < 65536 ∧ d.zones.length < 65536 ∧ d.leds.length < 65536 ∧
  d.colors.length < 65536 ∧ (∀ m ∈ d.modes, m.Wf) ∧ (∀ z ∈ d.zones, z.Wf) ∧
  (∀ l ∈ d.leds, l.Wf) ∧ (∀ c ∈ d.colors, c.Wf) ∧
  d.active_mode < d.modes.length ∧ d.colors.length = d.leds.length

instance (d : DeviceDescription) : Decidable d.Wf := by
  unfold DeviceDescription.Wf; infer_instance

/-- Modelled from the spec: `DeviceDescription::serialize` (missing .cpp body) —
device type, the six strings, `active_mode`, then the four 16-bit-counted
lists (modes, zones, leds, colors). -/
def DeviceDescription.serialize (d : DeviceDescription) : List Nat :=
  u32Bytes d.device_type.code ++ strBytes d.name ++ strBytes d.vendor ++
  strBytes d.description ++ strBytes d.version ++ strBytes d.serial ++
  strBytes d.location ++ u32Bytes d.active_mode ++
  writeList16 ModeDescription.serialize d.modes ++
  writeList16 ZoneDescription.serialize d.zones ++
  writeList16 LEDDescription.serialize d.leds ++
  writeList16 Color.bytes d.colors

/-- Modelled from the spec: `DeviceDescription::calcSize` (missing .cpp body). -/
def DeviceDescription.calcSize (d : DeviceDescription) : Nat :=
  4 + strSize d.name + strSize d.vendor + strSize d.description +
  strSize d.version + strSize d.serial + strSize d.location + 4 +
  (2 + sizeSum ModeDescription.calcSize d.modes) +
  (2 + sizeSum ZoneDescription.calcSize d.zones) +
  (2 + sizeSum LEDDescription.calcSize d.leds) +
  (2 + 4 * d.colors.length)

/-- Modelled from the spec: `DeviceDescription::deserialize` (missing .cpp
body) — reads all fields, then enforces `active_mode < modes.len()` and
`colors.len() == leds.len()`, failing `Malformed` otherwise. -/
def DeviceDescription.deserialize (s : List Nat) : ParseResult DeviceDescription :=
  pbind (readDeviceType s) fun (device_type, s) =>
  pbind (readStr s) fun (name, s) =>
  pbind (readStr s) fun (vendor, s) =>
  pbind (readStr s) fun (description, s) =>
  pbind (readStr s) fun (version, s) =>
  pbind (readStr s) fun (serial, s) =>
  pbind (readStr s) fun (location, s) =>
  pbind (readU32 s) fun (active_mode, s) =>
  pbind (readList16 ModeDescription.deserialize s) fun (modes, s) =>
  pbind (readList16 ZoneDescription.deserialize s) fun (zones, s) =>
  pbind (readList16 LEDDescription.deserialize s) fun (leds, s) =>
  pbind (readList16 readColor s) fun (colors, s) =>
  if active_mode < modes.length ∧ colors.length = leds.length then
    Except.ok (DeviceDescription.mk device_type name vendor description version
      serial location active_mode modes zones leds colors, s)
  else Except.error DeserialError.Malformed

/-! ### Message header -/

/-- Version of the protocol this client currently implements (source constant
`implementedProtocolVersion`). -/
def implementedProtocolVersion : Nat := 1

/-- The 4-byte ASCII magic `O R G B` that begins every frame. -/
def orgbMagic : List Nat := [0x4F, 0x52, 0x47, 0x42]

/-- Source struct `Header` (Protocol.hpp): every protocol message starts with
this; `message_size` is the size of the message minus the size of the header. -/
structure Header where
  magic : List Nat
  device_idx : Nat
  message_type : MessageType
  message_size : Nat
deriving DecidableEq

/-- Source constructor `Header(messageType, deviceIdx, messageSize)`: sets the
magic to `ORGB`. -/
def Header.make (messageType : MessageType) (deviceIdx : Nat) (messageSize : Nat) :
    Header :=
  Header.mk orgbMagic deviceIdx messageType messageSize

/-- `Header::size()`: 16 bytes, all members equally big (source constexpr). -/
def Header.size : Nat := 16

/-- Valid magic and u32 fields in range. -/
def Header.Wf (h : Header) : Prop :=
  h.magic = orgbMagic ∧ h.device_idx < 4294967296 ∧ h.message_size < 4294967296

instance (h : Header) : Decidable h.Wf := by
  unfold Header.Wf; infer_instance

/-- Modelled from the spec: `Header::serialize` (missing .cpp body) — exactly
16 bytes in the order magic, device_idx, message_type, body size. -/
def Header.serialize (h : Header) : List Nat :=
  h.magic ++ u32Bytes h.device_idx ++ u32Bytes h.message_type.code ++
  u32Bytes h.message_size

/-- Modelled from the spec: `Header::deserialize` (missing .cpp body) — reads
16 bytes; `BadMagic` if the magic differs from `ORGB`, `UnknownType` if the
message code is not recognised; `body_size` is returned verbatim. -/
def Header.deserialize (s : List Nat) : ParseResult Header :=
  pbind (readBytesN 4 s) fun (magic, s) =>
  if magic = orgbMagic then
    pbind (readU32 s) fun (device_idx, s) =>
    pbind (readU32 s) fun (tcode, s) =>
    match MessageType.ofCode tcode with
    | some t =>
        pbind (readU32 s) fun (message_size, s) =>
        Except.ok (Header.mk magic device_idx t message_size, s)
    | none => Except.error DeserialError.UnknownType
  else Except.error DeserialError.BadMagic

/-- Dispatch of an inbound frame to one message type: parse the header, require
the expected code, then run the message body parser (client-side dispatch as
described by the spec). -/
def deserializeFrameWith {α : Type} (t : MessageType)
    (body : Header → List Nat → ParseResult α) (s : List Nat) : ParseResult α :=
  pbind (Header.deserialize s) fun (hdr, s) =>
    if hdr.message_type = t then body hdr s else Except.error DeserialError.Malformed

/-! ### Protocol messages -/

/-- Source struct `RequestControllerCount`: asks how many controllers exist. -/
structure RequestControllerCount where
  header : Header
deriving DecidableEq

/-- Source constant `thisType`. -/
def RequestControllerCount.thisType : MessageType := MessageType.REQUEST_CONTROLLER_COUNT

/-- Source constexpr `calcDataSize()`: returns 0. -/
def RequestControllerCount.calcDataSize (_ : RequestControllerCount) : Nat := 0

/-- Source constructor: message_type = thisType, device_idx = 0,
message_size = calcDataSize() = 0. -/
def RequestControllerCount.make : RequestControllerCount :=
  RequestControllerCount.mk (Header.make RequestControllerCount.thisType 0 0)

/-- Source inline `serialize`: writes only the header. -/
def RequestControllerCount.serialize (m : RequestControllerCount) : List Nat :=
  m.header.serialize

/-- Source inline `deserializeBody`: reads nothing and succeeds. -/
def RequestControllerCount.deserializeBody (hdr : Header) (s : List Nat) :
    ParseResult RequestControllerCount :=
  Except.ok (RequestControllerCount.mk hdr, s)

/-- Full-frame decoder for this message type. -/
def RequestControllerCount.deserializeFrame :
    List Nat → ParseResult RequestControllerCount :=
  deserializeFrameWith RequestControllerCount.thisType
    RequestControllerCount.deserializeBody

def RequestControllerCount.Wf (m : RequestControllerCount) : Prop :=
  m.header.Wf ∧ m.header.message_type = RequestControllerCount.thisType

instance (m : RequestControllerCount) : Decidable m.Wf := by
  unfold RequestControllerCount.Wf; infer_instance

/-- Source struct `ReplyControllerCount`: reply carrying the controller count;
its `thisType` equals the request code. -/
structure ReplyControllerCount where
  header : Header
  count : Nat
deriving DecidableEq

/-- Source constant `thisType`: same code as the request. -/
def ReplyControllerCount.thisType : MessageType := MessageType.REQUEST_CONTROLLER_COUNT

/-- Source constexpr `calcDataSize()`: sizeof(count) = 4. -/
def ReplyControllerCount.calcDataSize (_ : ReplyControllerCount) : Nat := 4

/-- Source constructor: device_idx = 0, message_size = calcDataSize() = 4. -/
def ReplyControllerCount.make (count : Nat) : ReplyControllerCount :=
  ReplyControllerCount.mk (Header.make ReplyControllerCount.thisType 0 4) count

/-- Modelled from the spec: serialize (missing .cpp body) — header then
`count:u32`. -/
def ReplyControllerCount.serialize (m : ReplyControllerCount) : List Nat :=
  m.header.serialize ++ u32Bytes m.count

/-- Modelled from the spec: deserializeBody (missing .cpp body) — reads
`count:u32`. -/
def ReplyControllerCount.deserializeBody (hdr : Header) (s : List Nat) :
    ParseResult ReplyControllerCount :=
  pbind (readU32 s) fun (count, s) =>
    Except.ok (ReplyControllerCount.mk hdr count, s)

/-- Full-frame decoder for this message type. -/
def ReplyControllerCount.deserializeFrame :
    List Nat → ParseResult ReplyControllerCount :=
  deserializeFrameWith ReplyControllerCount.thisType ReplyControllerCount.deserializeBody

def ReplyControllerCount.Wf (m : ReplyControllerCount) : Prop :=
  m.header.Wf ∧ m.header.message_type = ReplyControllerCount.thisType ∧
  m.count < 4294967296

instance (m : ReplyControllerCount) : Decidable m.Wf := by
  unfold ReplyControllerCount.Wf; infer_instance

/-- Source struct `RequestControllerData`: asks for all information about one
controller.  NOTE (faithful to the source): `calcDataSize()` returns 0 and
`serialize` writes only the header, although the struct stores a
`protocolVersion` taken by the constructor. -/
structure RequestControllerData where
  header : Header
  protocolVersion : Nat
deriving DecidableEq

/-- Source constant `thisType`. -/
def RequestControllerData.thisType : MessageType := MessageType.REQUEST_CONTROLLER_DATA

/-- Source constexpr `calcDataSize()`: returns 0 (the stored protocolVersion is
not counted). -/
def RequestControllerData.calcDataSize (_ : RequestControllerData) : Nat := 0

/-- Source constructor: message_size = calcDataSize() = 0. -/
def RequestControllerData.make (deviceIdx protocolVersion : Nat) :
    RequestControllerData :=
  RequestControllerData.mk (Header.make RequestControllerData.thisType deviceIdx 0)
    protocolVersion

/-- Source inline `serialize`: writes only the header; protocolVersion is never
emitted. -/
def RequestControllerData.serialize (m : RequestControllerData) : List Nat :=
  m.header.serialize

def RequestControllerData.Wf (m : RequestControllerData) : Prop :=
  m.header.Wf ∧ m.header.message_type = RequestControllerData.thisType ∧
  m.protocolVersion < 4294967296

instance (m : RequestControllerData) : Decidable m.Wf := by
  unfold RequestControllerData.Wf; infer_instance

/-- Source struct `ReplyControllerData`: reply carrying a device description;
`data_size` must always equal `header.message_size`. -/
structure ReplyControllerData where
  header : Header
  data_size : Nat
  device_desc : DeviceDescription
deriving DecidableEq

/-- Source constant `thisType`: same code as the request. -/
def ReplyControllerData.thisType : MessageType := MessageType.REQUEST_CONTROLLER_DATA

/-- Modelled from the spec: `calcDataSize` (missing .cpp body) — the 32-bit
`data_size` field itself plus the device description, truncated to u32. -/
def ReplyControllerData.calcDataSize (m : ReplyControllerData) : Nat :=
  (4 + m.device_desc.calcSize) % 4294967296

/-- Source constructor: `header.message_size = data_size = calcDataSize()`. -/
def ReplyControllerData.make (deviceIdx : Nat) (device : DeviceDescription) :
    ReplyControllerData :=
  ReplyControllerData.mk
    (Header.make ReplyControllerData.thisType deviceIdx
      ((4 + device.calcSize) % 4294967296))
    ((4 + device.calcSize) % 4294967296) device

/-- Modelled from the spec: serialize (missing .cpp body) — header, `data_size`,
then the device description. -/
def ReplyControllerData.serialize (m : ReplyControllerData) : List Nat :=
  m.header.serialize ++ u32Bytes m.data_size ++ m.device_desc.serialize

/-- Modelled from the spec: deserializeBody (missing .cpp body) — reads
`data_size`, rejects a mismatch with `header.message_size` as `Malformed`,
then reads the device description. -/
def ReplyControllerData.deserializeBody (hdr : Header) (s : List Nat) :
    ParseResult ReplyControllerData :=
  pbind (readU32 s) fun (data_size, s) =>
    if data_size = hdr.message_size then
      pbind (DeviceDescription.deserialize s) fun (device_desc, s) =>
        Except.ok (ReplyControllerData.mk hdr data_size device_desc, s)
    else Except.error DeserialError.Malformed

/-- Full-frame decoder for this message type. -/
def ReplyControllerData.deserializeFrame :
    List Nat → ParseResult ReplyControllerData :=
  deserializeFrameWith ReplyControllerData.thisType ReplyControllerData.deserializeBody

def ReplyControllerData.Wf (m : ReplyControllerData) : Prop :=
  m.header.Wf ∧ m.header.message_type = ReplyControllerData.thisType ∧
  m.data_size = m.header.message_size ∧ m.device_desc.Wf

instance (m : ReplyControllerData) : Decidable m.Wf := by
  unfold ReplyControllerData.Wf; infer_instance

/-- Source struct `RequestProtocolVersion`: tells the server which protocol
version the client wants. -/
structure RequestProtocolVersion where
  header : Header
  clientVersion : Nat
deriving DecidableEq

/-- Source constant `thisType`. -/
def RequestProtocolVersion.thisType : MessageType := MessageType.REQUEST_PROTOCOL_VERSION

/-- Source constexpr `calcDataSize()`: sizeof(clientVersion) = 4. -/
def RequestProtocolVersion.calcDataSize (_ : RequestProtocolVersion) : Nat := 4

/-- Source constructor — the only one: takes no arguments and always sets
`clientVersion = implementedProtocolVersion` and `device_idx = 0`. -/
def RequestProtocolVersion.make : RequestProtocolVersion :=
  RequestProtocolVersion.mk (Header.make RequestProtocolVersion.thisType 0 4)
    implementedProtocolVersion

/-- Modelled from the spec: serialize (missing .cpp body) — header then
`client_version:u32`. -/
def RequestProtocolVersion.serialize (m : RequestProtocolVersion) : List Nat :=
  m.header.serialize ++ u32Bytes m.clientVersion

/-- Modelled from the spec: deserializeBody (missing .cpp body). -/
def RequestProtocolVersion.deserializeBody (hdr : Header) (s : List Nat) :
    ParseResult RequestProtocolVersion :=
  pbind (readU32 s) fun (clientVersion, s) =>
    Except.ok (RequestProtocolVersion.mk hdr clientVersion, s)

/-- Full-frame decoder for this message type. -/
def RequestProtocolVersion.deserializeFrame :
    List Nat → ParseResult RequestProtocolVersion :=
  deserializeFrameWith RequestProtocolVersion.thisType
    RequestProtocolVersion.deserializeBody

def RequestProtocolVersion.Wf (m : RequestProtocolVersion) : Prop :=
  m.header.Wf ∧ m.header.message_type = RequestProtocolVersion.thisType ∧
  m.clientVersion < 4294967296

instance (m : RequestProtocolVersion) : Decidable m.Wf := by
  unfold RequestProtocolVersion.Wf; infer_instance

/-- Source struct `ReplyProtocolVersion`: the maximum version the server
supports; its `thisType` equals the request code. -/
structure ReplyProtocolVersion where
  header : Header
  serverVersion : Nat
deriving DecidableEq

/-- Source constant `thisType`: same code as the request. -/
def ReplyProtocolVersion.thisType : MessageType := MessageType.REQUEST_PROTOCOL_VERSION

/-- Source constexpr `calcDataSize()`: sizeof(serverVersion) = 4. -/
def ReplyProtocolVersion.calcDataSize (_ : ReplyProtocolVersion) : Nat := 4

/-- Source constructor: device_idx = 0, message_size = 4. -/
def ReplyProtocolVersion.make (protocolVersion : Nat) : ReplyProtocolVersion :=
  ReplyProtocolVersion.mk (Header.make ReplyProtocolVersion.thisType 0 4)
    protocolVersion

/-- Modelled from the spec: serialize (missing .cpp body) — header then
`server_version:u32`. -/
def ReplyProtocolVersion.serialize (m : ReplyProtocolVersion) : List Nat :=
  m.header.serialize ++ u32Bytes m.serverVersion

/-- Modelled from the spec: deserializeBody (missing .cpp body). -/
def ReplyProtocolVersion.deserializeBody (hdr : Header) (s : List Nat) :
    ParseResult ReplyProtocolVersion :=
  pbind (readU32 s) fun (serverVersion, s) =>
    Except.ok (ReplyProtocolVersion.mk hdr serverVersion, s)

/-- Full-frame decoder for this message type. -/
def ReplyProtocolVersion.deserializeFrame :
    List Nat → ParseResult ReplyProtocolVersion :=
  deserializeFrameWith ReplyProtocolVersion.thisType ReplyProtocolVersion.deserializeBody

def ReplyProtocolVersion.Wf (m : ReplyProtocolVersion) : Prop :=
  m.header.Wf ∧ m.header.message_type = ReplyProtocolVersion.thisType ∧
  m.serverVersion < 4294967296

instance (m : ReplyProtocolVersion) : Decidable m.Wf := by
  unfold ReplyProtocolVersion.Wf; infer_instance

/-- Source struct `SetClientName`: announces the client's name. -/
structure SetClientName where
  header : Header
  name : List Nat
deriving DecidableEq

/-- Source constant `thisType`. -/
def SetClientName.thisType : MessageType := MessageType.SET_CLIENT_NAME

/-- Modelled from the spec: `calcDataSize` (missing .cpp body) — the
length-prefixed string size, truncated to u32. -/
def SetClientName.calcDataSize (m : SetClientName) : Nat :=
  strSize m.name % 4294967296

/-- Source constructor: device_idx = 0, then
`header.message_size = calcDataSize()`. -/
def SetClientName.make (name : List Nat) : SetClientName :=
  SetClientName.mk
    (Header.make SetClientName.thisType 0 (strSize name % 4294967296)) name

/-- Modelled from the spec: serialize (missing .cpp body) — header then the
length-prefixed `name` string. -/
def SetClientName.serialize (m : SetClientName) : List Nat :=
  m.header.serialize ++ strBytes m.name

/-- Modelled from the spec: deserializeBody (missing .cpp body). -/
def SetClientName.deserializeBody (hdr : Header) (s : List Nat) :
    ParseResult SetClientName :=
  pbind (readStr s) fun (name, s) =>
    Except.ok (SetClientName.mk hdr name, s)

/-- Full-frame decoder for this message type. -/
def SetClientName.deserializeFrame : List Nat → ParseResult SetClientName :=
  deserializeFrameWith SetClientName.thisType SetClientName.deserializeBody

def SetClientName.Wf (m : SetClientName) : Prop :=
  m.header.Wf ∧ m.header.message_type = SetClientName.thisType ∧ StrWf m.name

instance (m : SetClientName) : Decidable m.Wf := by
  unfold SetClientName.Wf; infer_instance

/-- Source struct `DeviceListUpdated`: server notification, empty body. -/
structure DeviceListUpdated where
  header : Header
deriving DecidableEq

/-- Source constant `thisType`. -/
def DeviceListUpdated.thisType : MessageType := MessageType.DEVICE_LIST_UPDATED

/-- Source constexpr `calcDataSize()`: returns 0. -/
def DeviceListUpdated.calcDataSize (_ : DeviceListUpdated) : Nat := 0

/-- Source constructor: device_idx = 0, message_size = calcDataSize() = 0. -/
def DeviceListUpdated.make : DeviceListUpdated :=
  DeviceListUpdated.mk (Header.make DeviceListUpdated.thisType 0 0)

/-- Source inline `serialize`: writes only the header. -/
def DeviceListUpdated.serialize (m : DeviceListUpdated) : List Nat :=
  m.header.serialize

/-- Source inline `deserializeBody`: reads nothing and succeeds. -/
def DeviceListUpdated.deserializeBody (hdr : Header) (s : List Nat) :
    ParseResult DeviceListUpdated :=
  Except.ok (DeviceListUpdated.mk hdr, s)

/-- Full-frame decoder for this message type. -/
def DeviceListUpdated.deserializeFrame : List Nat → ParseResult DeviceListUpdated :=
  deserializeFrameWith DeviceListUpdated.thisType DeviceListUpdated.deserializeBody

def DeviceListUpdated.Wf (m : DeviceListUpdated) : Prop :=
  m.header.Wf ∧ m.header.message_type = DeviceListUpdated.thisType

instance (m : DeviceListUpdated) : Decidable m.Wf := by
  unfold DeviceListUpdated.Wf; infer_instance

/-- Source struct `ResizeZone`: resizes a zone of LEDs. -/
structure ResizeZone where
  header : Header
  zone_idx : Nat
  new_size : Nat
deriving DecidableEq

/-- Source constant `thisType`. -/
def ResizeZone.thisType : MessageType := MessageType.RGBCONTROLLER_RESIZEZONE

/-- Source constexpr `calcDataSize()`: sizeof(zone_idx) + sizeof(new_size) = 8. -/
def ResizeZone.calcDataSize (_ : ResizeZone) : Nat := 8

/-- Source constructor: message_size = calcDataSize() = 8. -/
def ResizeZone.make (deviceIdx zoneIdx newSize : Nat) : ResizeZone :=
  ResizeZone.mk (Header.make ResizeZone.thisType deviceIdx 8) zoneIdx newSize

/-- Modelled from the spec: serialize (missing .cpp body) — header, then
`zone_idx:u32` and `new_size:u32`. -/
def ResizeZone.serialize (m : ResizeZone) : List Nat :=
  m.header.serialize ++ u32Bytes m.zone_idx ++ u32Bytes m.new_size

/-- Modelled from the spec: deserializeBody (missing .cpp body). -/
def ResizeZone.deserializeBody (hdr : Header) (s : List Nat) :
    ParseResult ResizeZone :=
  pbind (readU32 s) fun (zone_idx, s) =>
  pbind (readU32 s) fun (new_size, s) =>
    Except.ok (ResizeZone.mk hdr zone_idx new_size, s)

/-- Full-frame decoder for this message type. -/
def ResizeZone.deserializeFrame : List Nat → ParseResult ResizeZone :=
  deserializeFrameWith ResizeZone.thisType ResizeZone.deserializeBody

def ResizeZone.Wf (m : ResizeZone) : Prop :=
  m.header.Wf ∧ m.header.message_type = ResizeZone.thisType ∧
  m.zone_idx < 4294967296 ∧ m.new_size < 4294967296

instance (m : ResizeZone) : Decidable m.Wf := by
  unfold ResizeZone.Wf; infer_instance

/-- Source struct `UpdateLEDs`: applies a color to every LED; carries the
mirrored `data_size`. -/
structure UpdateLEDs where
  header : Header
  data_size : Nat
  colors : List Color
deriving DecidableEq

/-- Source constant `thisType`. -/
def UpdateLEDs.thisType : MessageType := MessageType.RGBCONTROLLER_UPDATELEDS

/-- Modelled from the spec: `calcDataSize` (missing .cpp body) — `data_size`
itself, the 16-bit color count, and 4 bytes per color, truncated to u32. -/
def UpdateLEDs.calcDataSize (m : UpdateLEDs) : Nat :=
  (4 + 2 + 4 * m.colors.length) % 4294967296

/-- Source constructor: `header.message_size = data_size = calcDataSize()`. -/
def UpdateLEDs.make (deviceIdx : Nat) (colors : List Color) : UpdateLEDs :=
  UpdateLEDs.mk
    (Header.make UpdateLEDs.thisType deviceIdx ((4 + 2 + 4 * colors.length) % 4294967296))
    ((4 + 2 + 4 * colors.length) % 4294967296) colors

/-- Modelled from the spec: serialize (missing .cpp body) — header, `data_size`,
then the 16-bit-counted color list. -/
def UpdateLEDs.serialize (m : UpdateLEDs) : List Nat :=
  m.header.serialize ++ u32Bytes m.data_size ++ writeList16 Color.bytes m.colors

/-- Modelled from the spec: deserializeBody (missing .cpp body) — rejects a
`data_size` differing from `header.message_size` as `Malformed`. -/
def UpdateLEDs.deserializeBody (hdr : Header) (s : List Nat) :
    ParseResult UpdateLEDs :=
  pbind (readU32 s) fun (data_size, s) =>
    if data_size = hdr.message_size then
      pbind (readList16 readColor s) fun (colors, s) =>
        Except.ok (UpdateLEDs.mk hdr data_size colors, s)
    else Except.error DeserialError.Malformed

/-- Full-frame decoder for this message type. -/
def UpdateLEDs.deserializeFrame : List Nat → ParseResult UpdateLEDs :=
  deserializeFrameWith UpdateLEDs.thisType UpdateLEDs.deserializeBody

def UpdateLEDs.Wf (m : UpdateLEDs) : Prop :=
  m.header.Wf ∧ m.header.message_type = UpdateLEDs.thisType ∧
  m.data_size = m.header.message_size ∧ m.colors.length < 65536 ∧
  ∀ c ∈ m.colors, c.Wf

instance (m : UpdateLEDs) : Decidable m.Wf := by
  unfold UpdateLEDs.Wf; infer_instance

/-- Source struct `UpdateZoneLEDs`: applies a color to every LED of one zone;
carries the mirrored `data_size`. -/
structure UpdateZoneLEDs where
  header : Header
  data_size : Nat
  zone_idx : Nat
  colors : List Color
deriving DecidableEq

/-- Source constant `thisType`. -/
def UpdateZoneLEDs.thisType : MessageType := MessageType.RGBCONTROLLER_UPDATEZONELEDS

/-- Modelled from the spec: `calcDataSize` (missing .cpp body). -/
def UpdateZoneLEDs.calcDataSize (m : UpdateZoneLEDs) : Nat :=
  (4 + 4 + 2 + 4 * m.colors.length) % 4294967296

/-- Source constructor: `header.message_size = data_size = calcDataSize()`. -/
def UpdateZoneLEDs.make (deviceIdx zoneIdx : Nat) (colors : List Color) :
    UpdateZoneLEDs :=
  UpdateZoneLEDs.mk
    (Header.make UpdateZoneLEDs.thisType deviceIdx
      ((4 + 4 + 2 + 4 * colors.length) % 4294967296))
    ((4 + 4 + 2 + 4 * colors.length) % 4294967296) zoneIdx colors

/-- Modelled from the spec: serialize (missing .cpp body) — header, `data_size`,
`zone_idx`, then the 16-bit-counted color list. -/
def UpdateZoneLEDs.serialize (m : UpdateZoneLEDs) : List Nat :=
  m.header.serialize ++ u32Bytes m.data_size ++ u32Bytes m.zone_idx ++
  writeList16 Color.bytes m.colors

/-- Modelled from the spec: deserializeBody (missing .cpp body) — rejects a
`data_size` differing from `header.message_size` as `Malformed`. -/
def UpdateZoneLEDs.deserializeBody (hdr : Header) (s : List Nat) :
    ParseResult UpdateZoneLEDs :=
  pbind (readU32 s) fun (data_size, s) =>
    if data_size = hdr.message_size then
      pbind (readU32 s) fun (zone_idx, s) =>
      pbind (readList16 readColor s) fun (colors, s) =>
        Except.ok (UpdateZoneLEDs.mk hdr data_size zone_idx colors, s)
    else Except.error DeserialError.Malformed

/-- Full-frame decoder for this message type. -/
def UpdateZoneLEDs.deserializeFrame : List Nat → ParseResult UpdateZoneLEDs :=
  deserializeFrameWith UpdateZoneLEDs.thisType UpdateZoneLEDs.deserializeBody

def UpdateZoneLEDs.Wf (m : UpdateZoneLEDs) : Prop :=
  m.header.Wf ∧ m.header.message_type = UpdateZoneLEDs.thisType ∧
  m.data_size = m.header.message_size ∧ m.zone_idx < 4294967296 ∧
  m.colors.length < 65536 ∧ ∀ c ∈ m.colors, c.Wf

instance (m : UpdateZoneLEDs) : Decidable m.Wf := by
  unfold UpdateZoneLEDs.Wf; infer_instance

/-- Source struct `UpdateSingleLED`: changes the color of one LED. -/
structure UpdateSingleLED where
  header : Header
  led_idx : Nat
  color : Color
deriving DecidableEq

/-- Source constant `thisType`. -/
def UpdateSingleLED.thisType : MessageType := MessageType.RGBCONTROLLER_UPDATESINGLELED

/-- Modelled from the spec: `calcDataSize` (missing .cpp body) —
sizeof(led_idx) + sizeof(color) = 8. -/
def UpdateSingleLED.calcDataSize (_ : UpdateSingleLED) : Nat := 8

/-- Source constructor: message_size = calcDataSize(). -/
def UpdateSingleLED.make (deviceIdx ledIdx : Nat) (color : Color) : UpdateSingleLED :=
  UpdateSingleLED.mk (Header.make UpdateSingleLED.thisType deviceIdx 8) ledIdx color

/-- Modelled from the spec: serialize (missing .cpp body) — header,
`led_idx:u32`, then the 4-byte color. -/
def UpdateSingleLED.serialize (m : UpdateSingleLED) : List Nat :=
  m.header.serialize ++ u32Bytes m.led_idx ++ m.color.bytes

/-- Modelled from the spec: deserializeBody (missing .cpp body). -/
def UpdateSingleLED.deserializeBody (hdr : Header) (s : List Nat) :
    ParseResult UpdateSingleLED :=
  pbind (readU32 s) fun (led_idx, s) =>
  pbind (readColor s) fun (color, s) =>
    Except.ok (UpdateSingleLED.mk hdr led_idx color, s)

/-- Full-frame decoder for this message type. -/
def UpdateSingleLED.deserializeFrame : List Nat → ParseResult UpdateSingleLED :=
  deserializeFrameWith UpdateSingleLED.thisType UpdateSingleLED.deserializeBody

def UpdateSingleLED.Wf (m : UpdateSingleLED) : Prop :=
  m.header.Wf ∧ m.header.message_type = UpdateSingleLED.thisType ∧
  m.led_idx < 4294967296 ∧ m.color.Wf

instance (m : UpdateSingleLED) : Decidable m.Wf := by
  unfold UpdateSingleLED.Wf; infer_instance

/-- Source struct `SetCustomMode`: switches a device to "Direct" mode; empty
body. -/
structure SetCustomMode where
  header : Header
deriving DecidableEq

/-- Source constant `thisType`. -/
def SetCustomMode.thisType : MessageType := MessageType.RGBCONTROLLER_SETCUSTOMMODE

/-- Source constexpr `calcDataSize()`: returns 0. -/
def SetCustomMode.calcDataSize (_ : SetCustomMode) : Nat := 0

/-- Source constructor: message_size = calcDataSize() = 0. -/
def SetCustomMode.make (deviceIdx : Nat) : SetCustomMode :=
  SetCustomMode.mk (Header.make SetCustomMode.thisType deviceIdx 0)

/-- Source inline `serialize`: writes only the header. -/
def SetCustomMode.serialize (m : SetCustomMode) : List Nat :=
  m.header.serialize

/-- Source inline `deserializeBody`: reads nothing and succeeds. -/
def SetCustomMode.deserializeBody (hdr : Header) (s : List Nat) :
    ParseResult SetCustomMode :=
  Except.ok (SetCustomMode.mk hdr, s)

/-- Full-frame decoder for this message type. -/
def SetCustomMode.deserializeFrame : List Nat → ParseResult SetCustomMode :=
  deserializeFrameWith SetCustomMode.thisType SetCustomMode.deserializeBody

def SetCustomMode.Wf (m : SetCustomMode) : Prop :=
  m.header.Wf ∧ m.header.message_type = SetCustomMode.thisType

instance (m : SetCustomMode) : Decidable m.Wf := by
  unfold SetCustomMode.Wf; infer_instance

/-- Source struct `UpdateMode`: updates the parameters of one mode; carries the
mirrored `data_size`. -/
structure UpdateMode where
  header : Header
  data_size : Nat
  mode_idx : Nat
  mode_desc : ModeDescription
deriving DecidableEq

/-- Source constant `thisType`. -/
def UpdateMode.thisType : MessageType := MessageType.RGBCONTROLLER_UPDATEMODE

/-- Modelled from the spec: `calcDataSize` (missing .cpp body) — `data_size`
itself, `mode_idx`, then the mode description, truncated to u32. -/
def UpdateMode.calcDataSize (m : UpdateMode) : Nat :=
  (4 + 4 + m.mode_desc.calcSize) % 4294967296

/-- Source constructor: `header.message_size = data_size = calcDataSize()`. -/
def UpdateMode.make (deviceIdx modeIdx : Nat) (modeDesc : ModeDescription) :
    UpdateMode :=
  UpdateMode.mk
    (Header.make UpdateMode.thisType deviceIdx
      ((4 + 4 + modeDesc.calcSize) % 4294967296))
    ((4 + 4 + modeDesc.calcSize) % 4294967296) modeIdx modeDesc

/-- Modelled from the spec: serialize (missing .cpp body) — header, `data_size`,
`mode_idx`, then the mode description. -/
def UpdateMode.serialize (m : UpdateMode) : List Nat :=
  m.header.serialize ++ u32Bytes m.data_size ++ u32Bytes m.mode_idx ++
  m.mode_desc.serialize

/-- Modelled from the spec: deserializeBody (missing .cpp body) — rejects a
`data_size` differing from `header.message_size` as `Malformed`. -/
def UpdateMode.deserializeBody (hdr : Header) (s : List Nat) :
    ParseResult UpdateMode :=
  pbind (readU32 s) fun (data_size, s) =>
    if data_size = hdr.message_size then
      pbind (readU32 s) fun (mode_idx, s) =>
      pbind (ModeDescription.deserialize s) fun (mode_desc, s) =>
        Except.ok (UpdateMode.mk hdr data_size mode_idx mode_desc, s)
    else Except.error DeserialError.Malformed

/-- Full-frame decoder for this message type. -/
def UpdateMode.deserializeFrame : List Nat → ParseResult UpdateMode :=
  deserializeFrameWith UpdateMode.thisType UpdateMode.deserializeBody

def UpdateMode.Wf (m : UpdateMode) : Prop :=
  m.header.Wf ∧ m.header.message_type = UpdateMode.thisType ∧
  m.data_size = m.header.message_size ∧ m.mode_idx < 4294967296 ∧ m.mode_desc.Wf

instance (m : UpdateMode) : Decidable m.Wf := by
  unfold UpdateMode.Wf; infer_instance

/-! ### Handshake negotiation and example values -/

/-- Modelled from the spec: the client state machine's version negotiation
(client sources missing) — the negotiated version for the connection is the
minimum of the client's and the server's version. -/
def negotiate (req : RequestProtocolVersion) (rep : ReplyProtocolVersion) : Nat :=
  min req.clientVersion rep.serverVersion

/-- Modelled from the spec: the request the client sends immediately after the
transport opens (client sources missing); the source constructor admits no
other value. -/
def handshakeRequest : RequestProtocolVersion := RequestProtocolVersion.make

/-- A concrete color used to exercise the theorems. -/
def exColor : Color := Color.mk 255 128 0

/-- A concrete mode description used to exercise the theorems. -/
def exMode : ModeDescription :=
  ModeDescription.mk [65] 1 1 0 3 0 2 1 Direction.Left ColorMode.PerLed [exColor]

/-- A concrete matrix-less zone used to exercise the theorems. -/
def exZone : ZoneDescription :=
  ZoneDescription.mk [66] ZoneType.Linear 0 10 5 0 0 0 []

/-- A concrete zone carrying a 1x2 matrix block (matrix_length = 8 + 4*2). -/
def exZoneMatrix : ZoneDescription :=
  ZoneDescription.mk [67] ZoneType.Matrix 0 4 4 16 1 2 [7, 9]

/-- A concrete LED description used to exercise the theorems. -/
def exLed : LEDDescription := LEDDescription.mk [68] 2

/-- A concrete device description used to exercise the theorems. -/
def exDevice : DeviceDescription :=
  DeviceDescription.mk DeviceType.Keyboard [75] [86] [68] [49] [83] [76] 0
    [exMode] [exZone, exZoneMatrix] [exLed] [exColor]

theorem ok_pbind {α β : Type} (a : α × List Nat) (f : α × List Nat → ParseResult β) :
    pbind (Except.ok a) f = f a := rfl

theorem error_pbind {α β : Type} (e : DeserialError) (f : α × List Nat → ParseResult β) :
    pbind (Except.error e) f = Except.error e := rfl

theorem u8Bytes_length (v : Nat) : (u8Bytes v).length = 1 := rfl

theorem u16Bytes_length (v : Nat) : (u16Bytes v).length = 2 := rfl

theorem u32Bytes_length (v : Nat) : (u32Bytes v).length = 4 := rfl

theorem strBytes_length (s : List Nat) : (strBytes s).length = strSize s := by
  simp [strBytes, strSize, u16Bytes]
  omega

theorem readU8_round (v : Nat) (h : v < 256) :
    ∀ r : List Nat, readU8 (u8Bytes v ++ r) = Except.ok (v, r) := by
  intro r
  simp [u8Bytes, readU8, Nat.mod_eq_of_lt h]

theorem readU16_round (v : Nat) (h : v < 65536) :
    ∀ r : List Nat, readU16 (u16Bytes v ++ r) = Except.ok (v, r) := by
  intro r
  simp only [u16Bytes, List.cons_append, List.nil_append, readU16, Except.ok.injEq,
    Prod.mk.injEq, and_true]
  omega

theorem readU32_round (v : Nat) (h : v < 4294967296) :
    ∀ r : List Nat, readU32 (u32Bytes v ++ r) = Except.ok (v, r) := by
  intro r
  simp only [u32Bytes, List.cons_append, List.nil_append, readU32, Except.ok.injEq,
    Prod.mk.injEq, and_true]
  omega

theorem readBytesN_exact (xs r : List Nat) :
    readBytesN xs.length (xs ++ r) = Except.ok (xs, r) := by
  simp [readBytesN, List.take_left, List.drop_left]

theorem readStr_round (s : List Nat) (h : s.length + 1 < 65536) :
    ∀ r : List Nat, readStr (strBytes s ++ r) = Except.ok (s, r) := by
  intro r
  have h16 : readU16 (u16Bytes (s.length + 1) ++ ((s ++ [0]) ++ r)) =
      Except.ok (s.length + 1, (s ++ [0]) ++ r) := readU16_round _ h _
  have hb : readBytesN (s.length + 1) ((s ++ [0]) ++ r) = Except.ok (s ++ [0], r) := by
    have := readBytesN_exact (s ++ [0]) r
    simpa using this
  simp only [strBytes, List.append_assoc, List.cons_append, List.nil_append] at *
  simp only [readStr, h16, ok_pbind]
  simp only [Nat.add_eq_zero, Nat.one_ne_zero, and_false, if_false, hb, ok_pbind,
    Nat.add_sub_cancel]
  exact congrArg _ (congrArg (fun l => (l, r)) (List.take_left s [0]))

theorem readListN_round {α : Type} (readOne : List Nat → ParseResult α)
    (writeOne : α → List Nat) (P : α → Prop)
    (hone : ∀ a, P a → ∀ r, readOne (writeOne a ++ r) = Except.ok (a, r)) :
    ∀ (xs : List α), (∀ a ∈ xs, P a) → ∀ r : List Nat,
      readListN readOne xs.length (listBytes writeOne xs ++ r) = Except.ok (xs, r) := by
  intro xs
  induction xs with
  | nil => intro _ r; simp [listBytes, readListN]
  | cons a as ih =>
      intro hall r
      have h1 : readOne (writeOne a ++ (listBytes writeOne as ++ r)) =
          Except.ok (a, listBytes writeOne as ++ r) :=
        hone a (hall a (by simp)) _
      have h2 := ih (fun x hx => hall x (by simp [hx])) r
      simp only [listBytes, List.length_cons, List.append_assoc, readListN, h1, ok_pbind,
        h2]

theorem readList16_round {α : Type} (readOne : List Nat → ParseResult α)
    (writeOne : α → List Nat) (P : α → Prop)
    (hone : ∀ a, P a → ∀ r, readOne (writeOne a ++ r) = Except.ok (a, r))
    (xs : List α) (hlen : xs.length < 65536) (hall : ∀ a ∈ xs, P a) :
    ∀ r : List Nat, readList16 readOne (writeList16 writeOne xs ++ r) = Except.ok (xs, r) := by
  intro r
  have h16 : readU16 (u16Bytes xs.length ++ (listBytes writeOne xs ++ r)) =
      Except.ok (xs.length, listBytes writeOne xs ++ r) := readU16_round _ hlen _
  simp only [writeList16, List.append_assoc, readList16, h16, ok_pbind]
  exact readListN_round readOne writeOne P hone xs hall r

theorem listBytes_length {α : Type} (writeOne : α → List Nat) (f : α → Nat)
    (xs : List α) (h : ∀ a ∈ xs, (writeOne a).length = f a) :
    (listBytes writeOne xs).length = sizeSum f xs := by
  induction xs with
  | nil => simp [listBytes, sizeSum]
  | cons a as ih =>
      simp only [listBytes, sizeSum, List.length_append, h a (by simp)]
      rw [ih (fun x hx => h x (by simp [hx]))]

theorem direction_ofCode_code (d : Direction) : Direction.ofCode d.code = some d := by
  cases d <;> rfl

theorem colorMode_ofCode_code (c : ColorMode) : ColorMode.ofCode c.code = some c := by
  cases c <;> rfl

theorem zoneType_ofCode_code (z : ZoneType) : ZoneType.ofCode z.code = some z := by
  cases z <;> rfl

theorem deviceType_ofCode_code (d : DeviceType) : DeviceType.ofCode d.code = some d := by
  cases d <;> rfl

theorem messageType_ofCode_code (t : MessageType) : MessageType.ofCode t.code = some t := by
  cases t <;> rfl

theorem direction_code_lt (d : Direction) : d.code < 4294967296 := by
  cases d <;> norm_num [Direction.code]

theorem colorMode_code_lt (c : ColorMode) : c.code < 4294967296 := by
  cases c <;> norm_num [ColorMode.code]

theorem zoneType_code_lt (z : ZoneType) : z.code < 4294967296 := by
  cases z <;> norm_num [ZoneType.code]

theorem deviceType_code_lt (d : DeviceType) : d.code < 4294967296 := by
  cases d <;> norm_num [DeviceType.code]

theorem messageType_code_lt (t : MessageType) : t.code < 4294967296 := by
  cases t <;> norm_num [MessageType.code]

theorem readDirection_round (d : Direction) (r : List Nat) :
    readDirection (u32Bytes d.code ++ r) = Except.ok (d, r) := by
  simp [readDirection, readU32_round d.code (direction_code_lt d) r, ok_pbind, direction_ofCode_code]

theorem readColorMode_round (c : ColorMode) (r : List Nat) :
    readColorMode (u32Bytes c.code ++ r) = Except.ok (c, r) := by
  simp [readColorMode, readU32_round c.code (colorMode_code_lt c) r, ok_pbind, colorMode_ofCode_code]

theorem readZoneType_round (z : ZoneType) (r : List Nat) :
    readZoneType (u32Bytes z.code ++ r) = Except.ok (z, r) := by
  simp [readZoneType, readU32_round z.code (zoneType_code_lt z) r, ok_pbind, zoneType_ofCode_code]

theorem readDeviceType_round (d : DeviceType) (r : List Nat) :
    readDeviceType (u32Bytes d.code ++ r) = Except.ok (d, r) := by
  simp [readDeviceType, readU32_round d.code (deviceType_code_lt d) r, ok_pbind, deviceType_ofCode_code]

theorem Color.bytes_length (c : Color) : c.bytes.length = 4 := rfl

theorem readColor_round (c : Color) (h : c.Wf) :
    ∀ r : List Nat, readColor (c.bytes ++ r) = Except.ok (c, r) := by
  obtain ⟨h1, h2, h3⟩ := h
  intro r
  simp [Color.bytes, readColor, Nat.mod_eq_of_lt h1, Nat.mod_eq_of_lt h2,
    Nat.mod_eq_of_lt h3]

theorem sizeSum_const {α : Type} (k : Nat) (xs : List α) :
    sizeSum (fun _ => k) xs = k * xs.length := by
  induction xs with
  | nil => simp [sizeSum]
  | cons a as ih => simp [sizeSum, ih]; ring

theorem mode_size_eq (m : ModeDescription) :
    m.serialize.length = m.calcSize := by
  have hc : (listBytes Color.bytes m.colors).length = sizeSum (fun _ => 4) m.colors :=
    listBytes_length Color.bytes (fun _ => 4) m.colors (fun c _ => Color.bytes_length c)
  simp only [ModeDescription.serialize, ModeDescription.calcSize, writeList16,
    List.length_append, strBytes_length, u32Bytes_length, u16Bytes_length, hc,
    sizeSum_const]
  omega

theorem mode_round (m : ModeDescription) (hw : m.Wf) :
    ∀ r : List Nat, ModeDescription.deserialize (m.serialize ++ r) = Except.ok (m, r) := by
  obtain ⟨hname, hv, hf, hs1, hs2, hc1, hc2, hsp, hlen, hcols⟩ := hw
  intro r
  have hcolors := readList16_round readColor Color.bytes Color.Wf
      readColor_round m.colors hlen hcols
  simp only [ModeDescription.serialize, List.append_assoc, ModeDescription.deserialize,
    readStr_round _ hname.1, ok_pbind, readU32_round _ hv, readU32_round _ hf,
    readU32_round _ hs1, readU32_round _ hs2, readU32_round _ hc1, readU32_round _ hc2,
    readU32_round _ hsp, readDirection_round, readColorMode_round, hcolors]

theorem led_size_eq (l : LEDDescription) :
    l.serialize.length = l.calcSize := by
  simp [LEDDescription.serialize, LEDDescription.calcSize, strBytes_length,
    u32Bytes_length]

theorem led_round (l : LEDDescription) (hw : l.Wf) :
    ∀ r : List Nat, LEDDescription.deserialize (l.serialize ++ r) = Except.ok (l, r) := by
  obtain ⟨hname, hv⟩ := hw
  intro r
  simp only [LEDDescription.serialize, List.append_assoc, LEDDescription.deserialize,
    readStr_round _ hname.1, ok_pbind, readU32_round _ hv]

theorem zone_size_eq (z : ZoneDescription) :
    z.serialize.length = z.calcSize := by
  have hv : (listBytes u32Bytes z.matrix_values).length =
      sizeSum (fun _ => 4) z.matrix_values :=
    listBytes_length u32Bytes (fun _ => 4) z.matrix_values (fun v _ => u32Bytes_length v)
  by_cases h0 : z.matrix_length = 0
  · simp only [ZoneDescription.serialize, ZoneDescription.calcSize, h0, if_true,
      List.append_nil, List.length_append, strBytes_length, u32Bytes_length,
      u16Bytes_length, if_pos rfl]
  · simp only [ZoneDescription.serialize, ZoneDescription.calcSize, if_neg h0,
      List.length_append, strBytes_length, u32Bytes_length, u16Bytes_length, hv,
      sizeSum_const]

theorem zone_round (z : ZoneDescription) (hw : z.Wf) :
    ∀ r : List Nat, ZoneDescription.deserialize (z.serialize ++ r) = Except.ok (z, r) := by
  obtain ⟨zn, zt, zmin, zmax, zcnt, zml, zmh, zmw, zmv⟩ := z
  obtain ⟨hname, hmin, hmax, hcnt, hml, habsent, hpresent⟩ := hw
  intro r
  simp only at hname hmin hmax hcnt hml habsent hpresent
  by_cases h0 : zml = 0
  · obtain ⟨hh, hw2, hv⟩ := habsent h0
    subst hh hw2 hv h0
    simp only [ZoneDescription.serialize, ZoneDescription.deserialize, if_pos rfl,
      List.append_nil, List.append_assoc, readStr_round _ hname.1, ok_pbind,
      readZoneType_round, readU32_round _ hmin, readU32_round _ hmax,
      readU32_round _ hcnt, readU16_round _ hml, if_true]
  · obtain ⟨heq, hhlt, hwlt, hvlen, hvall⟩ := hpresent h0
    have hlist := readListN_round readU32 u32Bytes (fun v => v < 4294967296)
      readU32_round zmv hvall r
    rw [hvlen] at hlist
    simp only [ZoneDescription.serialize, ZoneDescription.deserialize, if_neg h0,
      List.append_assoc, readStr_round _ hname.1, ok_pbind, readZoneType_round,
      readU32_round _ hmin, readU32_round _ hmax, readU32_round _ hcnt,
      readU16_round _ hml, readU32_round _ hhlt, readU32_round _ hwlt,
      if_pos heq, hlist]

theorem device_size_eq (d : DeviceDescription) :
    d.serialize.length = d.calcSize := by
  have hm : (listBytes ModeDescription.serialize d.modes).length =
      sizeSum ModeDescription.calcSize d.modes :=
    listBytes_length ModeDescription.serialize ModeDescription.calcSize d.modes
      (fun m _ => mode_size_eq m)
  have hz : (listBytes ZoneDescription.serialize d.zones).length =
      sizeSum ZoneDescription.calcSize d.zones :=
    listBytes_length ZoneDescription.serialize ZoneDescription.calcSize d.zones
      (fun z _ => zone_size_eq z)
  have hl : (listBytes LEDDescription.serialize d.leds).length =
      sizeSum LEDDescription.calcSize d.leds :=
    listBytes_length LEDDescription.serialize LEDDescription.calcSize d.leds
      (fun l _ => led_size_eq l)
  have hc : (listBytes Color.bytes d.colors).length = sizeSum (fun _ => 4) d.colors :=
    listBytes_length Color.bytes (fun _ => 4) d.colors (fun c _ => Color.bytes_length c)
  simp only [DeviceDescription.serialize, DeviceDescription.calcSize, writeList16,
    List.length_append, strBytes_length, u32Bytes_length, u16Bytes_length, hm, hz, hl,
    hc, sizeSum_const]

theorem device_round (d : DeviceDescription) (hw : d.Wf) :
    ∀ r : List Nat, DeviceDescription.deserialize (d.serialize ++ r) = Except.ok (d, r) := by
  obtain ⟨hname, hvend, hdesc, hvers, hser, hloc, ham, hlm, hlz, hll, hlc, hmw, hzw,
    hlw, hcw, hactive, hcolled⟩ := hw
  intro r
  have hmodes := readList16_round ModeDescription.deserialize ModeDescription.serialize
    ModeDescription.Wf mode_round d.modes hlm hmw
  have hzones := readList16_round ZoneDescription.deserialize ZoneDescription.serialize
    ZoneDescription.Wf zone_round d.zones hlz hzw
  have hleds := readList16_round LEDDescription.deserialize LEDDescription.serialize
    LEDDescription.Wf led_round d.leds hll hlw
  have hcolors := readList16_round readColor Color.bytes Color.Wf
    readColor_round d.colors hlc hcw
  simp only [DeviceDescription.serialize, List.append_assoc,
    DeviceDescription.deserialize, readDeviceType_round, ok_pbind,
    readStr_round _ hname.1, readStr_round _ hvend.1, readStr_round _ hdesc.1,
    readStr_round _ hvers.1, readStr_round _ hser.1, readStr_round _ hloc.1,
    readU32_round _ ham, hmodes, hzones, hleds, hcolors, hactive, hcolled, and_self,
    if_true]

theorem Header.make_Wf (t : MessageType) (d s : Nat) (hd : d < 4294967296)
    (hs : s < 4294967296) : (Header.make t d s).Wf :=
  ⟨rfl, hd, hs⟩

theorem header_size_eq (h : Header) (hm : h.magic = orgbMagic) :
    h.serialize.length = Header.size := by
  simp [Header.serialize, Header.size, hm, orgbMagic, u32Bytes_length]

theorem header_round (h : Header) (hw : h.Wf) :
    ∀ r : List Nat, Header.deserialize (h.serialize ++ r) = Except.ok (h, r) := by
  obtain ⟨mg, di, mt, ms⟩ := h
  obtain ⟨hm, hd, hs⟩ := hw
  simp only at hm hd hs
  subst hm
  intro r
  have hmagic : ∀ rest : List Nat, readBytesN 4 (orgbMagic ++ rest) =
      Except.ok (orgbMagic, rest) := fun rest => readBytesN_exact orgbMagic rest
  simp only [Header.serialize, List.append_assoc, Header.deserialize, hmagic, ok_pbind,
    if_pos rfl, readU32_round _ hd, readU32_round _ (messageType_code_lt mt),
    messageType_ofCode_code, readU32_round _ hs, if_true]

/-- The first four bytes of a serialised header are its magic. -/
theorem Header.serialize_take4 (h : Header) (hm : h.magic = orgbMagic) :
    h.serialize.take 4 = orgbMagic := by
  have h4 : (4 : Nat) = h.magic.length := by rw [hm]; rfl
  rw [Header.serialize]
  simp only [List.append_assoc]
  rw [h4, List.take_left, hm]

theorem deserializeFrameWith_round {α : Type} (t : MessageType)
    (body : Header → List Nat → ParseResult α) (x : α) (hdr : Header) (hw : hdr.Wf)
    (ht : hdr.message_type = t) (bodyBytes : List Nat)
    (hbody : ∀ r, body hdr (bodyBytes ++ r) = Except.ok (x, r)) :
    ∀ r : List Nat,
      deserializeFrameWith t body ((hdr.serialize ++ bodyBytes) ++ r) = Except.ok (x, r) := by
  intro r
  simp only [List.append_assoc, deserializeFrameWith, header_round hdr hw, ok_pbind,
    ht, if_pos rfl, hbody, if_true]

theorem requestControllerCount_round (m : RequestControllerCount) (hw : m.Wf) :
    ∀ r : List Nat,
      RequestControllerCount.deserializeFrame (m.serialize ++ r) = Except.ok (m, r) := by
  intro r
  have h := deserializeFrameWith_round RequestControllerCount.thisType
    RequestControllerCount.deserializeBody m m.header hw.1 hw.2 [] (fun _ => rfl) r
  simpa [RequestControllerCount.deserializeFrame, RequestControllerCount.serialize]
    using h

theorem replyControllerCount_round (m : ReplyControllerCount) (hw : m.Wf) :
    ∀ r : List Nat,
      ReplyControllerCount.deserializeFrame (m.serialize ++ r) = Except.ok (m, r) := by
  intro r
  have hbody : ∀ r2 : List Nat, ReplyControllerCount.deserializeBody m.header
      (u32Bytes m.count ++ r2) = Except.ok (m, r2) := by
    intro r2
    simp only [ReplyControllerCount.deserializeBody, readU32_round _ hw.2.2, ok_pbind]
  have h := deserializeFrameWith_round ReplyControllerCount.thisType
    ReplyControllerCount.deserializeBody m m.header hw.1 hw.2.1 (u32Bytes m.count)
    hbody r
  simpa [ReplyControllerCount.deserializeFrame, ReplyControllerCount.serialize,
    List.append_assoc] using h

theorem replyControllerData_round (m : ReplyControllerData) (hw : m.Wf) :
    ∀ r : List Nat,
      ReplyControllerData.deserializeFrame (m.serialize ++ r) = Except.ok (m, r) := by
  obtain ⟨hh, ht, hds, hdev⟩ := hw
  intro r
  have hdslt : m.data_size < 4294967296 := by rw [hds]; exact hh.2.2
  have hbody : ∀ r2 : List Nat, ReplyControllerData.deserializeBody m.header
      (u32Bytes m.data_size ++ (m.device_desc.serialize ++ r2)) = Except.ok (m, r2) := by
    intro r2
    rw [hds]
    simp only [ReplyControllerData.deserializeBody, readU32_round _ hh.2.2, ok_pbind,
      eq_self_iff_true, if_true, device_round m.device_desc hdev]
    rw [← hds]
  have h := deserializeFrameWith_round ReplyControllerData.thisType
    ReplyControllerData.deserializeBody m m.header hh ht
    (u32Bytes m.data_size ++ m.device_desc.serialize) (by
      intro r2
      have := hbody r2
      simpa [List.append_assoc] using this) r
  simpa [ReplyControllerData.deserializeFrame, ReplyControllerData.serialize,
    List.append_assoc] using h

theorem requestProtocolVersion_round (m : RequestProtocolVersion) (hw : m.Wf) :
    ∀ r : List Nat,
      RequestProtocolVersion.deserializeFrame (m.serialize ++ r) = Except.ok (m, r) := by
  intro r
  have hbody : ∀ r2 : List Nat, RequestProtocolVersion.deserializeBody m.header
      (u32Bytes m.clientVersion ++ r2) = Except.ok (m, r2) := by
    intro r2
    simp only [RequestProtocolVersion.deserializeBody, readU32_round _ hw.2.2, ok_pbind]
  have h := deserializeFrameWith_round RequestProtocolVersion.thisType
    RequestProtocolVersion.deserializeBody m m.header hw.1 hw.2.1
    (u32Bytes m.clientVersion) hbody r
  simpa [RequestProtocolVersion.deserializeFrame, RequestProtocolVersion.serialize,
    List.append_assoc] using h

theorem replyProtocolVersion_round (m : ReplyProtocolVersion) (hw : m.Wf) :
    ∀ r : List Nat,
      ReplyProtocolVersion.deserializeFrame (m.serialize ++ r) = Except.ok (m, r) := by
  intro r
  have hbody : ∀ r2 : List Nat, ReplyProtocolVersion.deserializeBody m.header
      (u32Bytes m.serverVersion ++ r2) = Except.ok (m, r2) := by
    intro r2
    simp only [ReplyProtocolVersion.deserializeBody, readU32_round _ hw.2.2, ok_pbind]
  have h := deserializeFrameWith_round ReplyProtocolVersion.thisType
    ReplyProtocolVersion.deserializeBody m m.header hw.1 hw.2.1
    (u32Bytes m.serverVersion) hbody r
  simpa [ReplyProtocolVersion.deserializeFrame, ReplyProtocolVersion.serialize,
    List.append_assoc] using h

theorem setClientName_round (m : SetClientName) (hw : m.Wf) :
    ∀ r : List Nat,
      SetClientName.deserializeFrame (m.serialize ++ r) = Except.ok (m, r) := by
  intro r
  have hbody : ∀ r2 : List Nat, SetClientName.deserializeBody m.header
      (strBytes m.name ++ r2) = Except.ok (m, r2) := by
    intro r2
    simp only [SetClientName.deserializeBody, readStr_round _ hw.2.2.1, ok_pbind]
  have h := deserializeFrameWith_round SetClientName.thisType
    SetClientName.deserializeBody m m.header hw.1 hw.2.1 (strBytes m.name) hbody r
  simpa [SetClientName.deserializeFrame, SetClientName.serialize,
    List.append_assoc] using h

theorem deviceListUpdated_round (m : DeviceListUpdated) (hw : m.Wf) :
    ∀ r : List Nat,
      DeviceListUpdated.deserializeFrame (m.serialize ++ r) = Except.ok (m, r) := by
  intro r
  have h := deserializeFrameWith_round DeviceListUpdated.thisType
    DeviceListUpdated.deserializeBody m m.header hw.1 hw.2 [] (fun _ => rfl) r
  simpa [DeviceListUpdated.deserializeFrame, DeviceListUpdated.serialize] using h

theorem resizeZone_round (m : ResizeZone) (hw : m.Wf) :
    ∀ r : List Nat,
      ResizeZone.deserializeFrame (m.serialize ++ r) = Except.ok (m, r) := by
  intro r
  have hbody : ∀ r2 : List Nat, ResizeZone.deserializeBody m.header
      (u32Bytes m.zone_idx ++ (u32Bytes m.new_size ++ r2)) = Except.ok (m, r2) := by
    intro r2
    simp only [ResizeZone.deserializeBody, readU32_round _ hw.2.2.1, ok_pbind,
      readU32_round _ hw.2.2.2]
  have h := deserializeFrameWith_round ResizeZone.thisType ResizeZone.deserializeBody
    m m.header hw.1 hw.2.1 (u32Bytes m.zone_idx ++ u32Bytes m.new_size) (by
      intro r2
      have := hbody r2
      simpa [List.append_assoc] using this) r
  simpa [ResizeZone.deserializeFrame, ResizeZone.serialize, List.append_assoc] using h

theorem updateLEDs_round (m : UpdateLEDs) (hw : m.Wf) :
    ∀ r : List Nat,
      UpdateLEDs.deserializeFrame (m.serialize ++ r) = Except.ok (m, r) := by
  obtain ⟨hh, ht, hds, hlen, hcols⟩ := hw
  intro r
  have hlist := readList16_round readColor Color.bytes Color.Wf readColor_round
    m.colors hlen hcols
  have hbody : ∀ r2 : List Nat, UpdateLEDs.deserializeBody m.header
      (u32Bytes m.data_size ++ (writeList16 Color.bytes m.colors ++ r2)) =
      Except.ok (m, r2) := by
    intro r2
    rw [hds]
    simp only [UpdateLEDs.deserializeBody, readU32_round _ hh.2.2, ok_pbind,
      eq_self_iff_true, if_true, hlist]
    rw [← hds]
  have h := deserializeFrameWith_round UpdateLEDs.thisType UpdateLEDs.deserializeBody
    m m.header hh ht (u32Bytes m.data_size ++ writeList16 Color.bytes m.colors) (by
      intro r2
      have := hbody r2
      simpa [List.append_assoc] using this) r
  simpa [UpdateLEDs.deserializeFrame, UpdateLEDs.serialize, List.append_assoc] using h

theorem updateZoneLEDs_round (m : UpdateZoneLEDs) (hw : m.Wf) :
    ∀ r : List Nat,
      UpdateZoneLEDs.deserializeFrame (m.serialize ++ r) = Except.ok (m, r) := by
  obtain ⟨hh, ht, hds, hz, hlen, hcols⟩ := hw
  intro r
  have hlist := readList16_round readColor Color.bytes Color.Wf readColor_round
    m.colors hlen hcols
  have hbody : ∀ r2 : List Nat, UpdateZoneLEDs.deserializeBody m.header
      (u32Bytes m.data_size ++ (u32Bytes m.zone_idx ++
        (writeList16 Color.bytes m.colors ++ r2))) = Except.ok (m, r2) := by
    intro r2
    rw [hds]
    simp only [UpdateZoneLEDs.deserializeBody, readU32_round _ hh.2.2, ok_pbind,
      eq_self_iff_true, if_true, readU32_round _ hz, hlist]
    rw [← hds]
  have h := deserializeFrameWith_round UpdateZoneLEDs.thisType
    UpdateZoneLEDs.deserializeBody m m.header hh ht
    (u32Bytes m.data_size ++ u32Bytes m.zone_idx ++ writeList16 Color.bytes m.colors)
    (by
      intro r2
      have := hbody r2
      simpa [List.append_assoc] using this) r
  simpa [UpdateZoneLEDs.deserializeFrame, UpdateZoneLEDs.serialize,
    List.append_assoc] using h

theorem updateSingleLED_round (m : UpdateSingleLED) (hw : m.Wf) :
    ∀ r : List Nat,
      UpdateSingleLED.deserializeFrame (m.serialize ++ r) = Except.ok (m, r) := by
  intro r
  have hbody : ∀ r2 : List Nat, UpdateSingleLED.deserializeBody m.header
      (u32Bytes m.led_idx ++ (m.color.bytes ++ r2)) = Except.ok (m, r2) := by
    intro r2
    simp only [UpdateSingleLED.deserializeBody, readU32_round _ hw.2.2.1, ok_pbind,
      readColor_round _ hw.2.2.2]
  have h := deserializeFrameWith_round UpdateSingleLED.thisType
    UpdateSingleLED.deserializeBody m m.header hw.1 hw.2.1
    (u32Bytes m.led_idx ++ m.color.bytes) (by
      intro r2
      have := hbody r2
      simpa [List.append_assoc] using this) r
  simpa [UpdateSingleLED.deserializeFrame, UpdateSingleLED.serialize,
    List.append_assoc] using h

theorem setCustomMode_round (m : SetCustomMode) (hw : m.Wf) :
    ∀ r : List Nat,
      SetCustomMode.deserializeFrame (m.serialize ++ r) = Except.ok (m, r) := by
  intro r
  have h := deserializeFrameWith_round SetCustomMode.thisType
    SetCustomMode.deserializeBody m m.header hw.1 hw.2 [] (fun _ => rfl) r
  simpa [SetCustomMode.deserializeFrame, SetCustomMode.serialize] using h

theorem updateMode_round (m : UpdateMode) (hw : m.Wf) :
    ∀ r : List Nat,
      UpdateMode.deserializeFrame (m.serialize ++ r) = Except.ok (m, r) := by
  obtain ⟨hh, ht, hds, hmi, hmd⟩ := hw
  intro r
  have hbody : ∀ r2 : List Nat, UpdateMode.deserializeBody m.header
      (u32Bytes m.data_size ++ (u32Bytes m.mode_idx ++
        (m.mode_desc.serialize ++ r2))) = Except.ok (m, r2) := by
    intro r2
    rw [hds]
    simp only [UpdateMode.deserializeBody, readU32_round _ hh.2.2, ok_pbind,
      eq_self_iff_true, if_true, readU32_round _ hmi,
      mode_round m.mode_desc hmd]
    rw [← hds]
  have h := deserializeFrameWith_round UpdateMode.thisType UpdateMode.deserializeBody
    m m.header hh ht
    (u32Bytes m.data_size ++ u32Bytes m.mode_idx ++ m.mode_desc.serialize) (by
      intro r2
      have := hbody r2
      simpa [List.append_assoc] using this) r
  simpa [UpdateMode.deserializeFrame, UpdateMode.serialize, List.append_assoc] using h

/-! ### Frame sizes -/

theorem ModeDescription.calcSize_lt (m : ModeDescription) (hw : m.Wf) :
    4 + 4 + m.calcSize < 4294967296 := by
  obtain ⟨hname, _, _, _, _, _, _, _, hlen, _⟩ := hw
  have h1 := hname.1
  simp only [ModeDescription.calcSize, strSize]
  omega

theorem requestControllerCount_frame_size (m : RequestControllerCount)
    (hm : m.header.magic = orgbMagic) :
    m.serialize.length = Header.size + m.calcDataSize := by
  simp [RequestControllerCount.serialize, RequestControllerCount.calcDataSize,
    header_size_eq _ hm]

theorem replyControllerCount_frame_size (m : ReplyControllerCount)
    (hm : m.header.magic = orgbMagic) :
    m.serialize.length = Header.size + m.calcDataSize := by
  simp [ReplyControllerCount.serialize, ReplyControllerCount.calcDataSize,
    List.length_append, header_size_eq _ hm, u32Bytes_length]

theorem requestControllerData_frame_size (m : RequestControllerData)
    (hm : m.header.magic = orgbMagic) :
    m.serialize.length = Header.size + m.calcDataSize := by
  simp [RequestControllerData.serialize, RequestControllerData.calcDataSize,
    header_size_eq _ hm]

theorem replyControllerData_frame_size (m : ReplyControllerData)
    (hm : m.header.magic = orgbMagic)
    (hb : 4 + m.device_desc.calcSize < 4294967296) :
    m.serialize.length = Header.size + m.calcDataSize := by
  simp only [ReplyControllerData.serialize, ReplyControllerData.calcDataSize,
    List.length_append, header_size_eq _ hm, u32Bytes_length,
    device_size_eq, Nat.mod_eq_of_lt hb]
  omega

theorem requestProtocolVersion_frame_size (m : RequestProtocolVersion)
    (hm : m.header.magic = orgbMagic) :
    m.serialize.length = Header.size + m.calcDataSize := by
  simp [RequestProtocolVersion.serialize, RequestProtocolVersion.calcDataSize,
    List.length_append, header_size_eq _ hm, u32Bytes_length]

theorem replyProtocolVersion_frame_size (m : ReplyProtocolVersion)
    (hm : m.header.magic = orgbMagic) :
    m.serialize.length = Header.size + m.calcDataSize := by
  simp [ReplyProtocolVersion.serialize, ReplyProtocolVersion.calcDataSize,
    List.length_append, header_size_eq _ hm, u32Bytes_length]

theorem setClientName_frame_size (m : SetClientName)
    (hm : m.header.magic = orgbMagic) (hb : strSize m.name < 4294967296) :
    m.serialize.length = Header.size + m.calcDataSize := by
  simp only [SetClientName.serialize, SetClientName.calcDataSize, List.length_append,
    header_size_eq _ hm, strBytes_length, Nat.mod_eq_of_lt hb]

theorem deviceListUpdated_frame_size (m : DeviceListUpdated)
    (hm : m.header.magic = orgbMagic) :
    m.serialize.length = Header.size + m.calcDataSize := by
  simp [DeviceListUpdated.serialize, DeviceListUpdated.calcDataSize,
    header_size_eq _ hm]

theorem resizeZone_frame_size (m : ResizeZone)
    (hm : m.header.magic = orgbMagic) :
    m.serialize.length = Header.size + m.calcDataSize := by
  simp [ResizeZone.serialize, ResizeZone.calcDataSize, List.length_append,
    header_size_eq _ hm, u32Bytes_length]

theorem updateLEDs_frame_size (m : UpdateLEDs)
    (hm : m.header.magic = orgbMagic)
    (hb : 4 + 2 + 4 * m.colors.length < 4294967296) :
    m.serialize.length = Header.size + m.calcDataSize := by
  have hc : (listBytes Color.bytes m.colors).length = sizeSum (fun _ => 4) m.colors :=
    listBytes_length Color.bytes (fun _ => 4) m.colors (fun c _ => Color.bytes_length c)
  simp only [UpdateLEDs.serialize, UpdateLEDs.calcDataSize, writeList16,
    List.length_append, header_size_eq _ hm, u32Bytes_length, u16Bytes_length, hc,
    sizeSum_const, Nat.mod_eq_of_lt hb]
  omega

theorem updateZoneLEDs_frame_size (m : UpdateZoneLEDs)
    (hm : m.header.magic = orgbMagic)
    (hb : 4 + 4 + 2 + 4 * m.colors.length < 4294967296) :
    m.serialize.length = Header.size + m.calcDataSize := by
  have hc : (listBytes Color.bytes m.colors).length = sizeSum (fun _ => 4) m.colors :=
    listBytes_length Color.bytes (fun _ => 4) m.colors (fun c _ => Color.bytes_length c)
  simp only [UpdateZoneLEDs.serialize, UpdateZoneLEDs.calcDataSize, writeList16,
    List.length_append, header_size_eq _ hm, u32Bytes_length, u16Bytes_length, hc,
    sizeSum_const, Nat.mod_eq_of_lt hb]
  omega

theorem updateSingleLED_frame_size (m : UpdateSingleLED)
    (hm : m.header.magic = orgbMagic) :
    m.serialize.length = Header.size + m.calcDataSize := by
  simp [UpdateSingleLED.serialize, UpdateSingleLED.calcDataSize, List.length_append,
    header_size_eq _ hm, u32Bytes_length, Color.bytes_length]

theorem setCustomMode_frame_size (m : SetCustomMode)
    (hm : m.header.magic = orgbMagic) :
    m.serialize.length = Header.size + m.calcDataSize := by
  simp [SetCustomMode.serialize, SetCustomMode.calcDataSize, header_size_eq _ hm]

theorem updateMode_frame_size (m : UpdateMode)
    (hm : m.header.magic = orgbMagic)
    (hb : 4 + 4 + m.mode_desc.calcSize < 4294967296) :
    m.serialize.length = Header.size + m.calcDataSize := by
  simp only [UpdateMode.serialize, UpdateMode.calcDataSize, List.length_append,
    header_size_eq _ hm, u32Bytes_length, mode_size_eq,
    Nat.mod_eq_of_lt hb]
  omega

/-- Any frame built as header-plus-body starts with the ORGB magic. -/
theorem frame_take4 (hdr : Header) (hm : hdr.magic = orgbMagic) (body : List Nat) :
    ((hdr.serialize ++ body).take 4) = orgbMagic := by
  rw [List.take_append_of_le_length, Header.serialize_take4 hdr hm]
  rw [header_size_eq hdr hm]
  norm_num [Header.size]

/-! ### data_size mirror facts -/

theorem pbind_ok_inv {α β : Type} (x : ParseResult α)
    (f : α × List Nat → ParseResult β) (b : β × List Nat)
    (h : pbind x f = Except.ok b) : ∃ a, x = Except.ok a ∧ f a = Except.ok b := by
  cases hx : x with
  | ok a => rw [hx, ok_pbind] at h; exact ⟨a, rfl, h⟩
  | error e => rw [hx, error_pbind] at h; exact Except.noConfusion h

theorem replyControllerData_deser_mirror (hdr : Header) (s : List Nat)
    (x : ReplyControllerData) (rest : List Nat)
    (h : ReplyControllerData.deserializeBody hdr s = Except.ok (x, rest)) :
    x.data_size = x.header.message_size := by
  unfold ReplyControllerData.deserializeBody at h
  obtain ⟨a, ha, h⟩ := pbind_ok_inv _ _ _ h
  obtain ⟨a1, a2⟩ := a
  by_cases hc : a1 = hdr.message_size
  · simp only [hc, eq_self_iff_true, if_true] at h
    obtain ⟨b, hb, h⟩ := pbind_ok_inv _ _ _ h
    obtain ⟨b1, b2⟩ := b
    have h3 : ReplyControllerData.mk hdr hdr.message_size b1 = x :=
      congrArg Prod.fst (Except.ok.inj h)
    rw [← h3]
  · simp [if_neg hc] at h

theorem updateLEDs_deser_mirror (hdr : Header) (s : List Nat)
    (x : UpdateLEDs) (rest : List Nat)
    (h : UpdateLEDs.deserializeBody hdr s = Except.ok (x, rest)) :
    x.data_size = x.header.message_size := by
  unfold UpdateLEDs.deserializeBody at h
  obtain ⟨a, ha, h⟩ := pbind_ok_inv _ _ _ h
  obtain ⟨a1, a2⟩ := a
  by_cases hc : a1 = hdr.message_size
  · simp only [hc, eq_self_iff_true, if_true] at h
    obtain ⟨b, hb, h⟩ := pbind_ok_inv _ _ _ h
    obtain ⟨b1, b2⟩ := b
    have h3 : UpdateLEDs.mk hdr hdr.message_size b1 = x :=
      congrArg Prod.fst (Except.ok.inj h)
    rw [← h3]
  · simp [if_neg hc] at h

theorem updateZoneLEDs_deser_mirror (hdr : Header) (s : List Nat)
    (x : UpdateZoneLEDs) (rest : List Nat)
    (h : UpdateZoneLEDs.deserializeBody hdr s = Except.ok (x, rest)) :
    x.data_size = x.header.message_size := by
  unfold UpdateZoneLEDs.deserializeBody at h
  obtain ⟨a, ha, h⟩ := pbind_ok_inv _ _ _ h
  obtain ⟨a1, a2⟩ := a
  by_cases hc : a1 = hdr.message_size
  · simp only [hc, eq_self_iff_true, if_true] at h
    obtain ⟨b, hb, h⟩ := pbind_ok_inv _ _ _ h
    obtain ⟨b1, b2⟩ := b
    obtain ⟨c, hc, h⟩ := pbind_ok_inv _ _ _ h
    obtain ⟨c1, c2⟩ := c
    have h3 : UpdateZoneLEDs.mk hdr hdr.message_size b1 c1 = x :=
      congrArg Prod.fst (Except.ok.inj h)
    rw [← h3]
  · simp [if_neg hc] at h

theorem updateMode_deser_mirror (hdr : Header) (s : List Nat)
    (x : UpdateMode) (rest : List Nat)
    (h : UpdateMode.deserializeBody hdr s = Except.ok (x, rest)) :
    x.data_size = x.header.message_size := by
  unfold UpdateMode.deserializeBody at h
  obtain ⟨a, ha, h⟩ := pbind_ok_inv _ _ _ h
  obtain ⟨a1, a2⟩ := a
  by_cases hc : a1 = hdr.message_size
  · simp only [hc, eq_self_iff_true, if_true] at h
    obtain ⟨b, hb, h⟩ := pbind_ok_inv _ _ _ h
    obtain ⟨b1, b2⟩ := b
    obtain ⟨c, hc, h⟩ := pbind_ok_inv _ _ _ h
    obtain ⟨c1, c2⟩ := c
    have h3 : UpdateMode.mk hdr hdr.message_size b1 c1 = x :=
      congrArg Prod.fst (Except.ok.inj h)
    rw [← h3]
  · simp [if_neg hc] at h

theorem replyControllerData_tamper_rejected (hdr : Header) (hw : hdr.Wf)
    (ht : hdr.message_type = ReplyControllerData.thisType) (dval : Nat)
    (hd : dval < 4294967296) (hne : dval ≠ hdr.message_size) (rest : List Nat) :
    ReplyControllerData.deserializeFrame (hdr.serialize ++ (u32Bytes dval ++ rest)) =
      Except.error DeserialError.Malformed := by
  simp only [ReplyControllerData.deserializeFrame, deserializeFrameWith,
    header_round hdr hw, ok_pbind, ht, eq_self_iff_true, if_true,
    ReplyControllerData.deserializeBody, readU32_round _ hd, if_neg hne]

theorem updateLEDs_tamper_rejected (hdr : Header) (hw : hdr.Wf)
    (ht : hdr.message_type = UpdateLEDs.thisType) (dval : Nat)
    (hd : dval < 4294967296) (hne : dval ≠ hdr.message_size) (rest : List Nat) :
    UpdateLEDs.deserializeFrame (hdr.serialize ++ (u32Bytes dval ++ rest)) =
      Except.error DeserialError.Malformed := by
  simp only [UpdateLEDs.deserializeFrame, deserializeFrameWith, header_round hdr hw,
    ok_pbind, ht, eq_self_iff_true, if_true, UpdateLEDs.deserializeBody,
    readU32_round _ hd, if_neg hne]

theorem updateZoneLEDs_tamper_rejected (hdr : Header) (hw : hdr.Wf)
    (ht : hdr.message_type = UpdateZoneLEDs.thisType) (dval : Nat)
    (hd : dval < 4294967296) (hne : dval ≠ hdr.message_size) (rest : List Nat) :
    UpdateZoneLEDs.deserializeFrame (hdr.serialize ++ (u32Bytes dval ++ rest)) =
      Except.error DeserialError.Malformed := by
  simp only [UpdateZoneLEDs.deserializeFrame, deserializeFrameWith,
    header_round hdr hw, ok_pbind, ht, eq_self_iff_true, if_true,
    UpdateZoneLEDs.deserializeBody, readU32_round _ hd, if_neg hne]

theorem updateMode_tamper_rejected (hdr : Header) (hw : hdr.Wf)
    (ht : hdr.message_type = UpdateMode.thisType) (dval : Nat)
    (hd : dval < 4294967296) (hne : dval ≠ hdr.message_size) (rest : List Nat) :
    UpdateMode.deserializeFrame (hdr.serialize ++ (u32Bytes dval ++ rest)) =
      Except.error DeserialError.Malformed := by
  simp only [UpdateMode.deserializeFrame, deserializeFrameWith, header_round hdr hw,
    ok_pbind, ht, eq_self_iff_true, if_true, UpdateMode.deserializeBody,
    readU32_round _ hd, if_neg hne]

/-! ### The claims -/

/-- C3: at the failing input RequestControllerData(device 0, version 1) the
code emits a frame with an empty body — `calcDataSize()` is 0,
`header.message_size` is 0 and `serialize` writes only the 16-byte header,
dropping the stored protocolVersion — where the spec's message table demands a
4-byte `protocol_version:u32` body. -/
theorem requestControllerData_zero_body :
    (RequestControllerData.make 0 1).protocolVersion = 1 ∧
    (RequestControllerData.make 0 1).header.message_size = 0 ∧
    (RequestControllerData.make 0 1).calcDataSize = 0 ∧
    (RequestControllerData.make 0 1).serialize =
      (RequestControllerData.make 0 1).header.serialize ∧
    (RequestControllerData.make 0 1).serialize.length = 16 := by
  refine ⟨rfl, rfl, rfl, rfl, ?_⟩
  decide

/-- C5: the three zero-body messages serialise to exactly the 16-byte header
with `body_size = 0`, and their body deserialisation succeeds on an empty
body. -/
theorem zero_body_law :
    (RequestControllerCount.make.serialize =
        RequestControllerCount.make.header.serialize ∧
      RequestControllerCount.make.serialize.length = 16 ∧
      RequestControllerCount.make.header.message_size = 0 ∧
      RequestControllerCount.deserializeBody RequestControllerCount.make.header [] =
        Except.ok (RequestControllerCount.make, [])) ∧
    (DeviceListUpdated.make.serialize = DeviceListUpdated.make.header.serialize ∧
      DeviceListUpdated.make.serialize.length = 16 ∧
      DeviceListUpdated.make.header.message_size = 0 ∧
      DeviceListUpdated.deserializeBody DeviceListUpdated.make.header [] =
        Except.ok (DeviceListUpdated.make, [])) ∧
    (∀ dev : Nat, (SetCustomMode.make dev).serialize =
        (SetCustomMode.make dev).header.serialize ∧
      (SetCustomMode.make dev).serialize.length = 16 ∧
      (SetCustomMode.make dev).header.message_size = 0 ∧
      SetCustomMode.deserializeBody (SetCustomMode.make dev).header [] =
        Except.ok (SetCustomMode.make dev, [])) := by
  refine ⟨⟨rfl, by decide, rfl, rfl⟩, ⟨rfl, by decide, rfl, rfl⟩, fun dev => ⟨rfl, ?_, rfl, rfl⟩⟩
  exact header_size_eq _ rfl

/-- C6: every message's wire code matches the spec's table, and each reply
message carries the same `message_type` code as its request. -/
theorem message_type_codes :
    RequestControllerCount.thisType.code = 0 ∧
    RequestControllerData.thisType.code = 1 ∧
    RequestProtocolVersion.thisType.code = 40 ∧
    SetClientName.thisType.code = 50 ∧
    DeviceListUpdated.thisType.code = 100 ∧
    ResizeZone.thisType.code = 1000 ∧
    UpdateLEDs.thisType.code = 1050 ∧
    UpdateZoneLEDs.thisType.code = 1051 ∧
    UpdateSingleLED.thisType.code = 1052 ∧
    SetCustomMode.thisType.code = 1100 ∧
    UpdateMode.thisType.code = 1101 ∧
    ReplyControllerCount.thisType = RequestControllerCount.thisType ∧
    ReplyControllerData.thisType = RequestControllerData.thisType ∧
    ReplyProtocolVersion.thisType = RequestProtocolVersion.thisType := by
  decide

/-- C7: the handshake request carries
`client_version = implementedProtocolVersion = 1`, and the negotiated version
is the minimum of the client's and the server's version. -/
theorem handshake_negotiation :
    handshakeRequest.clientVersion = implementedProtocolVersion ∧
    implementedProtocolVersion = 1 ∧
    handshakeRequest.header.message_type = MessageType.REQUEST_PROTOCOL_VERSION ∧
    ∀ s : Nat, negotiate handshakeRequest (ReplyProtocolVersion.make s) =
      min implementedProtocolVersion s :=
  ⟨rfl, rfl, rfl, fun _ => rfl⟩

/-- C10: the only RequestProtocolVersion constructor takes no version argument
and always produces `clientVersion = implementedProtocolVersion = 1` and
`device_idx = 0`. -/
theorem protocol_version_constructor_invariant :
    RequestProtocolVersion.make.clientVersion = implementedProtocolVersion ∧
    implementedProtocolVersion = 1 ∧
    RequestProtocolVersion.make.header.device_idx = 0 :=
  ⟨rfl, rfl, rfl⟩

/-- C8: strings are framed as a 16-bit length counting the characters plus the
zero terminator, then the characters, then the terminator; the empty string is
`01 00 00`; SetClientName("foo") has body `04 00 66 6F 6F 00` and
`body_size = 6`. -/
theorem string_framing_law :
    strBytes [] = [1, 0, 0] ∧
    (∀ name : List Nat, (SetClientName.make name).serialize =
      (SetClientName.make name).header.serialize ++
        (u16Bytes (name.length + 1) ++ (name ++ [0]))) ∧
    (∀ name : List Nat, name.length + 1 < 65536 →
      (SetClientName.make name).header.message_size = name.length + 3) ∧
    (SetClientName.make [102, 111, 111]).serialize =
      (SetClientName.make [102, 111, 111]).header.serialize ++
        [4, 0, 102, 111, 111, 0] ∧
    (SetClientName.make [102, 111, 111]).header.message_size = 6 := by
  refine ⟨rfl, ?_, ?_, ?_, rfl⟩
  · intro name
    simp [SetClientName.serialize, SetClientName.make, strBytes, List.append_assoc]
  · intro name h
    show strSize name % 4294967296 = name.length + 3
    rw [Nat.mod_eq_of_lt (by simp only [strSize]; omega)]
    simp only [strSize]
    omega
  · decide

/-- C8 witness: the string-framing law applied at the concrete name "foo". -/
theorem string_framing_law_witness :
    (SetClientName.make [102, 111, 111]).serialize =
      (SetClientName.make [102, 111, 111]).header.serialize ++
        (u16Bytes ([102, 111, 111].length + 1) ++ ([102, 111, 111] ++ [0])) ∧
    (SetClientName.make [102, 111, 111]).header.message_size =
      [102, 111, 111].length + 3 :=
  ⟨string_framing_law.2.1 [102, 111, 111],
   string_framing_law.2.2.1 [102, 111, 111] (by decide)⟩

/-- C9: a ResizeZone frame's body is the two little-endian 32-bit words
`zone_idx` then `new_size` with `body_size = 8`; deserialising that body on the
constructed header restores the message; ResizeZone(device 0, zone 1,
new_size 16) has body bytes 01 00 00 00 10 00 00 00. -/
theorem resize_zone_law :
    (∀ d z n : Nat, (ResizeZone.make d z n).serialize =
      (ResizeZone.make d z n).header.serialize ++ (u32Bytes z ++ u32Bytes n) ∧
      (ResizeZone.make d z n).header.message_size = 8) ∧
    (∀ d z n : Nat, z < 4294967296 → n < 4294967296 → ∀ rest : List Nat,
      ResizeZone.deserializeBody (ResizeZone.make d z n).header
        (u32Bytes z ++ (u32Bytes n ++ rest)) =
        Except.ok (ResizeZone.make d z n, rest)) ∧
    (ResizeZone.make 0 1 16).serialize =
      (ResizeZone.make 0 1 16).header.serialize ++ [1, 0, 0, 0, 16, 0, 0, 0] ∧
    (ResizeZone.make 0 1 16).header.message_size = 8 := by
  refine ⟨?_, ?_, ?_, rfl⟩
  · intro d z n
    exact ⟨by simp [ResizeZone.serialize, ResizeZone.make, List.append_assoc], rfl⟩
  · intro d z n hz hn rest
    simp only [ResizeZone.deserializeBody, readU32_round _ hz, ok_pbind,
      readU32_round _ hn]
    rfl
  · decide

/-- C9 witness: the resize-zone law applied at device 0, zone 1, new size 16. -/
theorem resize_zone_law_witness :
    ResizeZone.deserializeBody (ResizeZone.make 0 1 16).header
      (u32Bytes 1 ++ (u32Bytes 16 ++ [])) = Except.ok (ResizeZone.make 0 1 16, []) :=
  resize_zone_law.2.1 0 1 16 (by decide) (by decide) []

theorem size_minus_16 (a b : Nat) (hl : a = Header.size + b) : b = a - 16 := by
  simp only [Header.size] at hl
  omega

theorem serialize_take4_two (hdr : Header) (hm : hdr.magic = orgbMagic)
    (a b : List Nat) : (((hdr.serialize ++ a) ++ b).take 4) = orgbMagic := by
  rw [List.append_assoc]
  exact frame_take4 hdr hm (a ++ b)

theorem serialize_take4_three (hdr : Header) (hm : hdr.magic = orgbMagic)
    (a b c : List Nat) : ((((hdr.serialize ++ a) ++ b) ++ c).take 4) = orgbMagic := by
  rw [List.append_assoc, List.append_assoc]
  exact frame_take4 hdr hm (a ++ (b ++ c))

/-- C4: a well-formed header serialises to exactly 16 bytes in the order magic,
device_idx, message_type, body_size; every message built by a public
constructor starts with the bytes 4F 52 47 42 and carries
`body_size = frame length - 16`. -/
theorem header_and_frame_law :
    (∀ h : Header, h.Wf → h.serialize.length = 16) ∧
    (∀ h : Header, h.serialize =
      h.magic ++ (u32Bytes h.device_idx ++
        (u32Bytes h.message_type.code ++ u32Bytes h.message_size))) ∧
    (RequestControllerCount.make.serialize.take 4 = orgbMagic ∧
      RequestControllerCount.make.header.message_size =
        RequestControllerCount.make.serialize.length - 16) ∧
    (∀ count : Nat, (ReplyControllerCount.make count).serialize.take 4 = orgbMagic ∧
      (ReplyControllerCount.make count).header.message_size =
        (ReplyControllerCount.make count).serialize.length - 16) ∧
    (∀ dev v : Nat, (RequestControllerData.make dev v).serialize.take 4 = orgbMagic ∧
      (RequestControllerData.make dev v).header.message_size =
        (RequestControllerData.make dev v).serialize.length - 16) ∧
    (∀ dev : Nat, ∀ desc : DeviceDescription, 4 + desc.calcSize < 4294967296 →
      (ReplyControllerData.make dev desc).serialize.take 4 = orgbMagic ∧
      (ReplyControllerData.make dev desc).header.message_size =
        (ReplyControllerData.make dev desc).serialize.length - 16) ∧
    (RequestProtocolVersion.make.serialize.take 4 = orgbMagic ∧
      RequestProtocolVersion.make.header.message_size =
        RequestProtocolVersion.make.serialize.length - 16) ∧
    (∀ v : Nat, (ReplyProtocolVersion.make v).serialize.take 4 = orgbMagic ∧
      (ReplyProtocolVersion.make v).header.message_size =
        (ReplyProtocolVersion.make v).serialize.length - 16) ∧
    (∀ name : List Nat, StrWf name →
      (SetClientName.make name).serialize.take 4 = orgbMagic ∧
      (SetClientName.make name).header.message_size =
        (SetClientName.make name).serialize.length - 16) ∧
    (DeviceListUpdated.make.serialize.take 4 = orgbMagic ∧
      DeviceListUpdated.make.header.message_size =
        DeviceListUpdated.make.serialize.length - 16) ∧
    (∀ d z n : Nat, (ResizeZone.make d z n).serialize.take 4 = orgbMagic ∧
      (ResizeZone.make d z n).header.message_size =
        (ResizeZone.make d z n).serialize.length - 16) ∧
    (∀ d : Nat, ∀ cs : List Color, cs.length < 65536 →
      (UpdateLEDs.make d cs).serialize.take 4 = orgbMagic ∧
      (UpdateLEDs.make d cs).header.message_size =
        (UpdateLEDs.make d cs).serialize.length - 16) ∧
    (∀ d z : Nat, ∀ cs : List Color, cs.length < 65536 →
      (UpdateZoneLEDs.make d z cs).serialize.take 4 = orgbMagic ∧
      (UpdateZoneLEDs.make d z cs).header.message_size =
        (UpdateZoneLEDs.make d z cs).serialize.length - 16) ∧
    (∀ d l : Nat, ∀ c : Color, (UpdateSingleLED.make d l c).serialize.take 4 = orgbMagic ∧
      (UpdateSingleLED.make d l c).header.message_size =
        (UpdateSingleLED.make d l c).serialize.length - 16) ∧
    (∀ d : Nat, (SetCustomMode.make d).serialize.take 4 = orgbMagic ∧
      (SetCustomMode.make d).header.message_size =
        (SetCustomMode.make d).serialize.length - 16) ∧
    (∀ d mi : Nat, ∀ md : ModeDescription, md.Wf →
      (UpdateMode.make d mi md).serialize.take 4 = orgbMagic ∧
      (UpdateMode.make d mi md).header.message_size =
        (UpdateMode.make d mi md).serialize.length - 16) := by
  refine ⟨fun h hw => header_size_eq h hw.1, fun h => ?_, ?_, ?_, ?_, ?_, ?_, ?_, ?_,
    ?_, ?_, ?_, ?_, ?_, ?_, ?_⟩
  · simp [Header.serialize, List.append_assoc]
  · exact ⟨Header.serialize_take4 _ rfl,
      size_minus_16 _ _ (requestControllerCount_frame_size _ rfl)⟩
  · intro count
    exact ⟨frame_take4 _ rfl _, size_minus_16 _ _ (replyControllerCount_frame_size _ rfl)⟩
  · intro dev v
    exact ⟨Header.serialize_take4 _ rfl,
      size_minus_16 _ _ (requestControllerData_frame_size _ rfl)⟩
  · intro dev desc hb
    exact ⟨serialize_take4_two _ rfl _ _,
      size_minus_16 _ _ (replyControllerData_frame_size _ rfl hb)⟩
  · exact ⟨frame_take4 _ rfl _,
      size_minus_16 _ _ (requestProtocolVersion_frame_size _ rfl)⟩
  · intro v
    exact ⟨frame_take4 _ rfl _, size_minus_16 _ _ (replyProtocolVersion_frame_size _ rfl)⟩
  · intro name hn
    refine ⟨frame_take4 _ rfl _, size_minus_16 _ _ (setClientName_frame_size _ rfl ?_)⟩
    show strSize name < 4294967296
    have h1 := hn.1
    simp only [strSize]
    omega
  · exact ⟨Header.serialize_take4 _ rfl,
      size_minus_16 _ _ (deviceListUpdated_frame_size _ rfl)⟩
  · intro d z n
    exact ⟨serialize_take4_two _ rfl _ _, size_minus_16 _ _ (resizeZone_frame_size _ rfl)⟩
  · intro d cs hlen
    refine ⟨serialize_take4_two _ rfl _ _,
      size_minus_16 _ _ (updateLEDs_frame_size _ rfl ?_)⟩
    show 4 + 2 + 4 * cs.length < 4294967296
    omega
  · intro d z cs hlen
    refine ⟨serialize_take4_three _ rfl _ _ _,
      size_minus_16 _ _ (updateZoneLEDs_frame_size _ rfl ?_)⟩
    show 4 + 4 + 2 + 4 * cs.length < 4294967296
    omega
  · intro d l c
    exact ⟨serialize_take4_two _ rfl _ _,
      size_minus_16 _ _ (updateSingleLED_frame_size _ rfl)⟩
  · intro d
    exact ⟨Header.serialize_take4 _ rfl, size_minus_16 _ _ (setCustomMode_frame_size _ rfl)⟩
  · intro d mi md hmd
    exact ⟨serialize_take4_three _ rfl _ _ _,
      size_minus_16 _ _ (updateMode_frame_size _ rfl (ModeDescription.calcSize_lt md hmd))⟩

/-- C4 witness: the header and frame law applied at concrete values. -/
theorem header_and_frame_law_witness :
    (Header.make MessageType.SET_CLIENT_NAME 0 6).serialize.length = 16 ∧
    ((ReplyControllerData.make 0 exDevice).serialize.take 4 = orgbMagic ∧
      (ReplyControllerData.make 0 exDevice).header.message_size =
        (ReplyControllerData.make 0 exDevice).serialize.length - 16) ∧
    ((SetClientName.make [102, 111, 111]).serialize.take 4 = orgbMagic ∧
      (SetClientName.make [102, 111, 111]).header.message_size =
        (SetClientName.make [102, 111, 111]).serialize.length - 16) ∧
    ((UpdateLEDs.make 2 [exColor]).serialize.take 4 = orgbMagic ∧
      (UpdateLEDs.make 2 [exColor]).header.message_size =
        (UpdateLEDs.make 2 [exColor]).serialize.length - 16) ∧
    ((UpdateZoneLEDs.make 2 1 [exColor]).serialize.take 4 = orgbMagic ∧
      (UpdateZoneLEDs.make 2 1 [exColor]).header.message_size =
        (UpdateZoneLEDs.make 2 1 [exColor]).serialize.length - 16) ∧
    ((UpdateMode.make 0 0 exMode).serialize.take 4 = orgbMagic ∧
      (UpdateMode.make 0 0 exMode).header.message_size =
        (UpdateMode.make 0 0 exMode).serialize.length - 16) :=
  ⟨header_and_frame_law.1 (Header.make MessageType.SET_CLIENT_NAME 0 6) (by decide),
   header_and_frame_law.2.2.2.2.2.1 0 exDevice (by decide),
   header_and_frame_law.2.2.2.2.2.2.2.2.1 [102, 111, 111] (by decide),
   header_and_frame_law.2.2.2.2.2.2.2.2.2.2.2.1 2 [exColor] (by decide),
   header_and_frame_law.2.2.2.2.2.2.2.2.2.2.2.2.1 2 1 [exColor] (by decide),
   header_and_frame_law.2.2.2.2.2.2.2.2.2.2.2.2.2.2.2 0 0 exMode (by decide)⟩

/-- C2: for the four data_size-bearing messages, construction makes
`data_size = header.message_size`; `data_size` is counted as part of the body
(the frame is exactly `Header.size + data_size` bytes long); every successful
body deserialisation yields `data_size = header.message_size`; and a frame
whose body `data_size` differs from the header's `body_size` is rejected as
`Malformed`. -/
theorem data_size_mirror_law :
    (∀ dev : Nat, ∀ desc : DeviceDescription,
      (ReplyControllerData.make dev desc).data_size =
        (ReplyControllerData.make dev desc).header.message_size) ∧
    (∀ dev : Nat, ∀ cs : List Color, (UpdateLEDs.make dev cs).data_size =
      (UpdateLEDs.make dev cs).header.message_size) ∧
    (∀ dev z : Nat, ∀ cs : List Color, (UpdateZoneLEDs.make dev z cs).data_size =
      (UpdateZoneLEDs.make dev z cs).header.message_size) ∧
    (∀ dev mi : Nat, ∀ md : ModeDescription, (UpdateMode.make dev mi md).data_size =
      (UpdateMode.make dev mi md).header.message_size) ∧
    (∀ dev : Nat, ∀ desc : DeviceDescription, 4 + desc.calcSize < 4294967296 →
      (ReplyControllerData.make dev desc).serialize.length =
        Header.size + (ReplyControllerData.make dev desc).data_size) ∧
    (∀ dev : Nat, ∀ cs : List Color, cs.length < 65536 →
      (UpdateLEDs.make dev cs).serialize.length =
        Header.size + (UpdateLEDs.make dev cs).data_size) ∧
    (∀ dev z : Nat, ∀ cs : List Color, cs.length < 65536 →
      (UpdateZoneLEDs.make dev z cs).serialize.length =
        Header.size + (UpdateZoneLEDs.make dev z cs).data_size) ∧
    (∀ dev mi : Nat, ∀ md : ModeDescription, md.Wf →
      (UpdateMode.make dev mi md).serialize.length =
        Header.size + (UpdateMode.make dev mi md).data_size) ∧
    (∀ hdr : Header, ∀ s : List Nat, ∀ x : ReplyControllerData, ∀ rest : List Nat,
      ReplyControllerData.deserializeBody hdr s = Except.ok (x, rest) →
      x.data_size = x.header.message_size) ∧
    (∀ hdr : Header, ∀ s : List Nat, ∀ x : UpdateLEDs, ∀ rest : List Nat,
      UpdateLEDs.deserializeBody hdr s = Except.ok (x, rest) →
      x.data_size = x.header.message_size) ∧
    (∀ hdr : Header, ∀ s : List Nat, ∀ x : UpdateZoneLEDs, ∀ rest : List Nat,
      UpdateZoneLEDs.deserializeBody hdr s = Except.ok (x, rest) →
      x.data_size = x.header.message_size) ∧
    (∀ hdr : Header, ∀ s : List Nat, ∀ x : UpdateMode, ∀ rest : List Nat,
      UpdateMode.deserializeBody hdr s = Except.ok (x, rest) →
      x.data_size = x.header.message_size) ∧
    (∀ hdr : Header, hdr.Wf → hdr.message_type = ReplyControllerData.thisType →
      ∀ dval : Nat, dval < 4294967296 → dval ≠ hdr.message_size → ∀ rest : List Nat,
      ReplyControllerData.deserializeFrame (hdr.serialize ++ (u32Bytes dval ++ rest)) =
        Except.error DeserialError.Malformed) ∧
    (∀ hdr : Header, hdr.Wf → hdr.message_type = UpdateLEDs.thisType →
      ∀ dval : Nat, dval < 4294967296 → dval ≠ hdr.message_size → ∀ rest : List Nat,
      UpdateLEDs.deserializeFrame (hdr.serialize ++ (u32Bytes dval ++ rest)) =
        Except.error DeserialError.Malformed) ∧
    (∀ hdr : Header, hdr.Wf → hdr.message_type = UpdateZoneLEDs.thisType →
      ∀ dval : Nat, dval < 4294967296 → dval ≠ hdr.message_size → ∀ rest : List Nat,
      UpdateZoneLEDs.deserializeFrame (hdr.serialize ++ (u32Bytes dval ++ rest)) =
        Except.error DeserialError.Malformed) ∧
    (∀ hdr : Header, hdr.Wf → hdr.message_type = UpdateMode.thisType →
      ∀ dval : Nat, dval < 4294967296 → dval ≠ hdr.message_size → ∀ rest : List Nat,
      UpdateMode.deserializeFrame (hdr.serialize ++ (u32Bytes dval ++ rest)) =
        Except.error DeserialError.Malformed) := by
  refine ⟨fun _ _ => rfl, fun _ _ => rfl, fun _ _ _ => rfl, fun _ _ _ => rfl,
    ?_, ?_, ?_, ?_,
    replyControllerData_deser_mirror, updateLEDs_deser_mirror,
    updateZoneLEDs_deser_mirror, updateMode_deser_mirror,
    replyControllerData_tamper_rejected, updateLEDs_tamper_rejected,
    updateZoneLEDs_tamper_rejected, updateMode_tamper_rejected⟩
  · intro dev desc hb
    exact replyControllerData_frame_size _ rfl hb
  · intro dev cs hlen
    refine updateLEDs_frame_size _ rfl ?_
    show 4 + 2 + 4 * cs.length < 4294967296
    omega
  · intro dev z cs hlen
    refine updateZoneLEDs_frame_size _ rfl ?_
    show 4 + 4 + 2 + 4 * cs.length < 4294967296
    omega
  · intro dev mi md hmd
    exact updateMode_frame_size _ rfl (ModeDescription.calcSize_lt md hmd)

/-- C2 witness: the data_size mirror law applied at concrete inputs — a
concrete frame length, a concrete successful body parse, and a concrete
tampered frame. -/
theorem data_size_mirror_law_witness :
    (UpdateLEDs.make 2 [exColor]).serialize.length =
      Header.size + (UpdateLEDs.make 2 [exColor]).data_size ∧
    (ReplyControllerData.make 0 exDevice).serialize.length =
      Header.size + (ReplyControllerData.make 0 exDevice).data_size ∧
    (UpdateZoneLEDs.make 2 1 [exColor]).serialize.length =
      Header.size + (UpdateZoneLEDs.make 2 1 [exColor]).data_size ∧
    (UpdateMode.make 0 0 exMode).serialize.length =
      Header.size + (UpdateMode.make 0 0 exMode).data_size ∧
    (UpdateLEDs.make 2 [exColor]).data_size =
      (UpdateLEDs.make 2 [exColor]).header.message_size ∧
    UpdateLEDs.deserializeFrame
      ((Header.make UpdateLEDs.thisType 0 5).serialize ++ (u32Bytes 6 ++ [])) =
      Except.error DeserialError.Malformed ∧
    UpdateMode.deserializeFrame
      ((Header.make UpdateMode.thisType 0 5).serialize ++ (u32Bytes 6 ++ [])) =
      Except.error DeserialError.Malformed ∧
    ReplyControllerData.deserializeFrame
      ((Header.make ReplyControllerData.thisType 0 5).serialize ++ (u32Bytes 6 ++ [])) =
      Except.error DeserialError.Malformed ∧
    UpdateZoneLEDs.deserializeFrame
      ((Header.make UpdateZoneLEDs.thisType 0 5).serialize ++ (u32Bytes 6 ++ [])) =
      Except.error DeserialError.Malformed ∧
    (UpdateLEDs.mk (Header.make UpdateLEDs.thisType 0 10) 10 [exColor]).data_size =
      (UpdateLEDs.mk (Header.make UpdateLEDs.thisType 0 10) 10 [exColor]).header.message_size :=
  ⟨data_size_mirror_law.2.2.2.2.2.1 2 [exColor] (by decide),
   data_size_mirror_law.2.2.2.2.1 0 exDevice (by decide),
   data_size_mirror_law.2.2.2.2.2.2.1 2 1 [exColor] (by decide),
   data_size_mirror_law.2.2.2.2.2.2.2.1 0 0 exMode (by decide),
   data_size_mirror_law.2.1 2 [exColor],
   data_size_mirror_law.2.2.2.2.2.2.2.2.2.2.2.2.2.1
     (Header.make UpdateLEDs.thisType 0 5) (by decide) rfl 6 (by decide) (by decide) [],
   data_size_mirror_law.2.2.2.2.2.2.2.2.2.2.2.2.2.2.2
     (Header.make UpdateMode.thisType 0 5) (by decide) rfl 6 (by decide) (by decide) [],
   data_size_mirror_law.2.2.2.2.2.2.2.2.2.2.2.2.1
     (Header.make ReplyControllerData.thisType 0 5) (by decide) rfl 6 (by decide)
     (by decide) [],
   data_size_mirror_law.2.2.2.2.2.2.2.2.2.2.2.2.2.2.1
     (Header.make UpdateZoneLEDs.thisType 0 5) (by decide) rfl 6 (by decide)
     (by decide) [],
   data_size_mirror_law.2.2.2.2.2.2.2.2.2.1
     (Header.make UpdateLEDs.thisType 0 10)
     (u32Bytes 10 ++ (u16Bytes 1 ++ exColor.bytes))
     (UpdateLEDs.mk (Header.make UpdateLEDs.thisType 0 10) 10 [exColor]) []
     rfl⟩

/-- C1 counterexample: the two distinct messages
RequestControllerData(device 0, version 1) and
RequestControllerData(device 0, version 2) serialise to the same bytes — the
stored protocolVersion is never written — so no deserialisation function can
round-trip both, refuting the claim for every message as stated. -/
theorem requestControllerData_serialize_collision :
    RequestControllerData.serialize (RequestControllerData.make 0 1) =
      RequestControllerData.serialize (RequestControllerData.make 0 2) ∧
    RequestControllerData.make 0 1 ≠ RequestControllerData.make 0 2 :=
  ⟨rfl, by decide⟩

/-- C1 (amended): for every description record and every message other than
RequestControllerData, deserialising the serialised bytes yields the same
value with the rest of the buffer untouched, and the serialised length equals
`calcSize()` for records resp. `Header.size + calcDataSize()` for message
frames; for RequestControllerData only the length law holds (its serialisation
omits the stored protocolVersion). -/
theorem roundtrip_and_size_law :
    (∀ m : ModeDescription, m.serialize.length = m.calcSize) ∧
    (∀ z : ZoneDescription, z.serialize.length = z.calcSize) ∧
    (∀ l : LEDDescription, l.serialize.length = l.calcSize) ∧
    (∀ d : DeviceDescription, d.serialize.length = d.calcSize) ∧
    (∀ m : ModeDescription, m.Wf →
      ∀ r : List Nat, ModeDescription.deserialize (m.serialize ++ r) = Except.ok (m, r)) ∧
    (∀ z : ZoneDescription, z.Wf →
      ∀ r : List Nat, ZoneDescription.deserialize (z.serialize ++ r) = Except.ok (z, r)) ∧
    (∀ l : LEDDescription, l.Wf →
      ∀ r : List Nat, LEDDescription.deserialize (l.serialize ++ r) = Except.ok (l, r)) ∧
    (∀ d : DeviceDescription, d.Wf →
      ∀ r : List Nat, DeviceDescription.deserialize (d.serialize ++ r) = Except.ok (d, r)) ∧
    (∀ x : RequestControllerCount, x.Wf →
      (∀ r : List Nat, RequestControllerCount.deserializeFrame (x.serialize ++ r) =
        Except.ok (x, r)) ∧ x.serialize.length = Header.size + x.calcDataSize) ∧
    (∀ x : ReplyControllerCount, x.Wf →
      (∀ r : List Nat, ReplyControllerCount.deserializeFrame (x.serialize ++ r) =
        Except.ok (x, r)) ∧ x.serialize.length = Header.size + x.calcDataSize) ∧
    (∀ x : RequestControllerData, x.Wf →
      x.serialize.length = Header.size + x.calcDataSize) ∧
    (∀ x : ReplyControllerData, x.Wf →
      (∀ r : List Nat, ReplyControllerData.deserializeFrame (x.serialize ++ r) =
        Except.ok (x, r)) ∧
      (4 + x.device_desc.calcSize < 4294967296 →
        x.serialize.length = Header.size + x.calcDataSize)) ∧
    (∀ x : RequestProtocolVersion, x.Wf →
      (∀ r : List Nat, RequestProtocolVersion.deserializeFrame (x.serialize ++ r) =
        Except.ok (x, r)) ∧ x.serialize.length = Header.size + x.calcDataSize) ∧
    (∀ x : ReplyProtocolVersion, x.Wf →
      (∀ r : List Nat, ReplyProtocolVersion.deserializeFrame (x.serialize ++ r) =
        Except.ok (x, r)) ∧ x.serialize.length = Header.size + x.calcDataSize) ∧
    (∀ x : SetClientName, x.Wf →
      (∀ r : List Nat, SetClientName.deserializeFrame (x.serialize ++ r) =
        Except.ok (x, r)) ∧ x.serialize.length = Header.size + x.calcDataSize) ∧
    (∀ x : DeviceListUpdated, x.Wf →
      (∀ r : List Nat, DeviceListUpdated.deserializeFrame (x.serialize ++ r) =
        Except.ok (x, r)) ∧ x.serialize.length = Header.size + x.calcDataSize) ∧
    (∀ x : ResizeZone, x.Wf →
      (∀ r : List Nat, ResizeZone.deserializeFrame (x.serialize ++ r) =
        Except.ok (x, r)) ∧ x.serialize.length = Header.size + x.calcDataSize) ∧
    (∀ x : UpdateLEDs, x.Wf →
      (∀ r : List Nat, UpdateLEDs.deserializeFrame (x.serialize ++ r) =
        Except.ok (x, r)) ∧ x.serialize.length = Header.size + x.calcDataSize) ∧
    (∀ x : UpdateZoneLEDs, x.Wf →
      (∀ r : List Nat, UpdateZoneLEDs.deserializeFrame (x.serialize ++ r) =
        Except.ok (x, r)) ∧ x.serialize.length = Header.size + x.calcDataSize) ∧
    (∀ x : UpdateSingleLED, x.Wf →
      (∀ r : List Nat, UpdateSingleLED.deserializeFrame (x.serialize ++ r) =
        Except.ok (x, r)) ∧ x.serialize.length = Header.size + x.calcDataSize) ∧
    (∀ x : SetCustomMode, x.Wf →
      (∀ r : List Nat, SetCustomMode.deserializeFrame (x.serialize ++ r) =
        Except.ok (x, r)) ∧ x.serialize.length = Header.size + x.calcDataSize) ∧
    (∀ x : UpdateMode, x.Wf →
      (∀ r : List Nat, UpdateMode.deserializeFrame (x.serialize ++ r) =
        Except.ok (x, r)) ∧ x.serialize.length = Header.size + x.calcDataSize) := by
  refine ⟨mode_size_eq, zone_size_eq, led_size_eq, device_size_eq, mode_round,
    zone_round, led_round, device_round,
    fun x hw => ⟨requestControllerCount_round x hw,
      requestControllerCount_frame_size x hw.1.1⟩,
    fun x hw => ⟨replyControllerCount_round x hw,
      replyControllerCount_frame_size x hw.1.1⟩,
    fun x hw => requestControllerData_frame_size x hw.1.1,
    fun x hw => ⟨replyControllerData_round x hw,
      fun hb => replyControllerData_frame_size x hw.1.1 hb⟩,
    fun x hw => ⟨requestProtocolVersion_round x hw,
      requestProtocolVersion_frame_size x hw.1.1⟩,
    fun x hw => ⟨replyProtocolVersion_round x hw,
      replyProtocolVersion_frame_size x hw.1.1⟩,
    fun x hw => ⟨setClientName_round x hw, setClientName_frame_size x hw.1.1 ?_⟩,
    fun x hw => ⟨deviceListUpdated_round x hw, deviceListUpdated_frame_size x hw.1.1⟩,
    fun x hw => ⟨resizeZone_round x hw, resizeZone_frame_size x hw.1.1⟩,
    fun x hw => ⟨updateLEDs_round x hw, updateLEDs_frame_size x hw.1.1 ?_⟩,
    fun x hw => ⟨updateZoneLEDs_round x hw, updateZoneLEDs_frame_size x hw.1.1 ?_⟩,
    fun x hw => ⟨updateSingleLED_round x hw, updateSingleLED_frame_size x hw.1.1⟩,
    fun x hw => ⟨setCustomMode_round x hw, setCustomMode_frame_size x hw.1.1⟩,
    fun x hw => ⟨updateMode_round x hw,
      updateMode_frame_size x hw.1.1 (ModeDescription.calcSize_lt x.mode_desc hw.2.2.2.2)⟩⟩
  · have h1 := hw.2.2.1
    show strSize x.name < 4294967296
    simp only [strSize]
    omega
  · have h1 := hw.2.2.2.1
    omega
  · have h1 := hw.2.2.2.2.1
    omega

/-- C1 witness: the round-trip and size law applied at concrete records
(including a zone with and without a matrix block) and at one concrete
message of each round-tripping type. -/
theorem roundtrip_and_size_law_witness :
    ModeDescription.deserialize (exMode.serialize ++ []) = Except.ok (exMode, []) ∧
    ZoneDescription.deserialize (exZone.serialize ++ []) = Except.ok (exZone, []) ∧
    ZoneDescription.deserialize (exZoneMatrix.serialize ++ []) =
      Except.ok (exZoneMatrix, []) ∧
    LEDDescription.deserialize (exLed.serialize ++ []) = Except.ok (exLed, []) ∧
    DeviceDescription.deserialize (exDevice.serialize ++ []) =
      Except.ok (exDevice, []) ∧
    RequestControllerCount.deserializeFrame
      (RequestControllerCount.make.serialize ++ []) =
      Except.ok (RequestControllerCount.make, []) ∧
    ReplyControllerCount.deserializeFrame
      ((ReplyControllerCount.make 7).serialize ++ []) =
      Except.ok (ReplyControllerCount.make 7, []) ∧
    (RequestControllerData.make 0 1).serialize.length =
      Header.size + (RequestControllerData.make 0 1).calcDataSize ∧
    ReplyControllerData.deserializeFrame
      ((ReplyControllerData.make 0 exDevice).serialize ++ []) =
      Except.ok (ReplyControllerData.make 0 exDevice, []) ∧
    (ReplyControllerData.make 0 exDevice).serialize.length =
      Header.size + (ReplyControllerData.make 0 exDevice).calcDataSize ∧
    RequestProtocolVersion.deserializeFrame
      (RequestProtocolVersion.make.serialize ++ []) =
      Except.ok (RequestProtocolVersion.make, []) ∧
    ReplyProtocolVersion.deserializeFrame
      ((ReplyProtocolVersion.make 1).serialize ++ []) =
      Except.ok (ReplyProtocolVersion.make 1, []) ∧
    SetClientName.deserializeFrame
      ((SetClientName.make [102, 111, 111]).serialize ++ []) =
      Except.ok (SetClientName.make [102, 111, 111], []) ∧
    DeviceListUpdated.deserializeFrame (DeviceListUpdated.make.serialize ++ []) =
      Except.ok (DeviceListUpdated.make, []) ∧
    ResizeZone.deserializeFrame ((ResizeZone.make 0 1 16).serialize ++ []) =
      Except.ok (ResizeZone.make 0 1 16, []) ∧
    UpdateLEDs.deserializeFrame ((UpdateLEDs.make 2 [exColor]).serialize ++ []) =
      Except.ok (UpdateLEDs.make 2 [exColor], []) ∧
    UpdateZoneLEDs.deserializeFrame
      ((UpdateZoneLEDs.make 2 1 [exColor]).serialize ++ []) =
      Except.ok (UpdateZoneLEDs.make 2 1 [exColor], []) ∧
    UpdateSingleLED.deserializeFrame
      ((UpdateSingleLED.make 2 5 exColor).serialize ++ []) =
      Except.ok (UpdateSingleLED.make 2 5 exColor, []) ∧
    SetCustomMode.deserializeFrame ((SetCustomMode.make 3).serialize ++ []) =
      Except.ok (SetCustomMode.make 3, []) ∧
    UpdateMode.deserializeFrame ((UpdateMode.make 0 0 exMode).serialize ++ []) =
      Except.ok (UpdateMode.make 0 0 exMode, []) := by
  obtain ⟨s1, s2, s3, s4, r1, r2, r3, r4, m1, m2, m3, m4, m5, m6, m7, m8, m9, m10,
    m11, m12, m13, m14⟩ := roundtrip_and_size_law
  exact ⟨r1 exMode (by decide) [], r2 exZone (by decide) [],
    r2 exZoneMatrix (by decide) [], r3 exLed (by decide) [],
    r4 exDevice (by decide) [],
    (m1 RequestControllerCount.make (by decide)).1 [],
    (m2 (ReplyControllerCount.make 7) (by decide)).1 [],
    m3 (RequestControllerData.make 0 1) (by decide),
    (m4 (ReplyControllerData.make 0 exDevice) (by decide)).1 [],
    (m4 (ReplyControllerData.make 0 exDevice) (by decide)).2 (by decide),
    (m5 RequestProtocolVersion.make (by decide)).1 [],
    (m6 (ReplyProtocolVersion.make 1) (by decide)).1 [],
    (m7 (SetClientName.make [102, 111, 111]) (by decide)).1 [],
    (m8 DeviceListUpdated.make (by decide)).1 [],
    (m9 (ResizeZone.make 0 1 16) (by decide)).1 [],
    (m10 (UpdateLEDs.make 2 [exColor]) (by decide)).1 [],
    (m11 (UpdateZoneLEDs.make 2 1 [exColor]) (by decide)).1 [],
    (m12 (UpdateSingleLED.make 2 5 exColor) (by decide)).1 [],
    (m13 (SetCustomMode.make 3) (by decide)).1 [],
    (m14 (UpdateMode.make 0 0 exMode) (by decide)).1 []⟩

end Orgb
